import Mathlib

/-!
Verification of the Ascend-Student-Portal browser client.

The development shallowly embeds the JavaScript sources under
frontend/static/js (profile_new.js, jobs.js, analytics_dashboard.js)
as pure Lean functions.  JavaScript values that the code inspects in a
shape-tolerant way (arrays that might not be arrays, objects that might
be missing keys) are embedded as the inductive type JVal; module-level
mutable state (the profile draft, the editing sentinels, the wizard step,
the jobs page, the current chart) is embedded as explicit state records
threaded through the functions.
-/

set_option maxRecDepth 4000

namespace Portal

/-- Embedding of a JSON-like JavaScript value.  `null` also stands for
`undefined` in positions where the source code only ever distinguishes
the two through truthiness, `typeof`, or `Array.isArray` checks, which
agree on both. -/
inductive JVal where
  | null : JVal
  | str (s : String) : JVal
  | int (n : Int) : JVal
  | bool (b : Bool) : JVal
  | arr (elems : List JVal) : JVal
  | obj (fields : List (String × JVal)) : JVal

/-- JavaScript `Array.isArray`. -/
def JVal.isArray : JVal → Bool
  | .arr _ => true
  | _ => false

/-- JavaScript truthiness of an embedded value. -/
def JVal.truthy : JVal → Bool
  | .null => false
  | .str s => s ≠ ""
  | .int n => n ≠ 0
  | .bool b => b
  | .arr _ => true
  | .obj _ => true

/-- Whether `typeof v` is the string "object" (true for arrays and for
`null`, exactly as in JavaScript). -/
def JVal.typeofObject : JVal → Bool
  | .null => true
  | .arr _ => true
  | .obj _ => true
  | _ => false

/-- The combined check `v && typeof v === "object"` used by
`sanitizeProfileData` to guard its object branches. -/
def JVal.objectLike (v : JVal) : Bool :=
  v.truthy && v.typeofObject

/-- Property read `v[k]` on an object, `none` meaning `undefined`.
JavaScript object keys are unique, so lookup of the first binding is
faithful. -/
def JVal.getField : JVal → String → Option JVal
  | .obj fs, k => fs.lookup k
  | _, _ => none

/-- Assignment `fs[k] = v` on the field list of an object: replaces the
first binding of `k` in place, or appends a new binding at the end
(JavaScript insertion order). -/
def setFieldList : List (String × JVal) → String → JVal → List (String × JVal)
  | [], k, v => [(k, v)]
  | (k', v') :: rest, k, v =>
      if k' = k then (k, v) :: rest else (k', v') :: setFieldList rest k v

/-- Property write `target[k] = v`.  On an object it updates the field
list.  On any other embedded value it is the identity: writing a named
property to a JavaScript array or primitive is not observable through
JSON serialization (array named properties are dropped by
JSON.stringify, and primitives ignore the write in sloppy mode), and the
client only ever persists the draft through JSON.stringify. -/
def JVal.setField : JVal → String → JVal → JVal
  | .obj fs, k, v => .obj (setFieldList fs k v)
  | w, _, _ => w

/-- JavaScript `s.trim()`: strips leading and trailing whitespace
(ASCII whitespace; the exotic Unicode space characters JavaScript also
strips do not occur in this client). -/
def jsTrim (s : String) : String :=
  String.mk
    (((s.toList.dropWhile Char.isWhitespace).reverse.dropWhile
        Char.isWhitespace).reverse)

/-- JavaScript `s.toLowerCase()` (ASCII). -/
def jsToLower (s : String) : String :=
  String.mk (s.toList.map Char.toLower)

/-- Split of a character list at every occurrence of the separator. -/
def splitOnChar (sep : Char) : List Char → List (List Char)
  | [] => [[]]
  | c :: cs =>
      match splitOnChar sep cs with
      | [] => [[]]
      | r :: rs => if c = sep then [] :: r :: rs else (c :: r) :: rs

/-- JavaScript `s.split(sep)` for a one-character separator. -/
def jsSplit (s : String) (sep : Char) : List String :=
  (splitOnChar sep s.toList).map String.mk

/-- The tag-splitting idiom `s.split(",").map(t => t.trim()).filter(t => t)`
used for `tech_stack` both in `sanitizeProfileData` and in
`saveProjectEntry`. -/
def splitTags (s : String) : List String :=
  ((jsSplit s ',').map jsTrim).filter (fun t => t ≠ "")

/-!
profile_new.js: the module-level draft `profileData`.  The seven fields
touched by `sanitizeProfileData` are embedded shape-tolerantly as JVal;
the scalar fields (full_name, phone, location, gender, date_of_birth,
summary, domain_expertise, languages, achievements,
total_experience_years, current_role, current_company), which
`sanitizeProfileData` never reads or writes, are kept as one untouched
association list so that the no-other-effect part of its contract is
expressible.
-/

/-- Embedding of the `profileData` draft object of profile_new.js. -/
structure Profile where
  education : JVal
  skills : JVal
  experience : JVal
  projects : JVal
  certifications : JVal
  preferences : JVal
  links : JVal
  scalars : List (String × JVal)

/-- The idiom `if (!Array.isArray(x)) x = []` applied by
`sanitizeProfileData` to each of the five sub-collection fields. -/
def ensureArray (v : JVal) : JVal :=
  if v.isArray then v else .arr []

/-- Default object installed for `profileData.preferences` when it is
absent or not object-typed (profile_new.js lines 165-175). -/
def defaultPreferences : JVal :=
  .obj [("employment_type", .arr []), ("work_mode", .arr []),
        ("preferred_roles", .null), ("preferred_industries", .null),
        ("expected_salary", .null), ("willing_to_relocate", .null),
        ("notice_period", .null), ("availability_date", .null),
        ("preferred_locations", .null)]

/-- Default object installed for `profileData.links` when it is absent
or not object-typed (profile_new.js lines 188-195). -/
def defaultLinks : JVal :=
  .obj [("linkedin", .null), ("github", .null), ("portfolio", .null),
        ("resume_link", .null), ("twitter", .null), ("leetcode", .null)]

/-- The idiom `if (!Array.isArray(p[k])) p[k] = []` applied inside the
object branch for preferences (keys employment_type and work_mode). -/
def ensureFieldArray (p : JVal) (k : String) : JVal :=
  match p.getField k with
  | some (.arr _) => p
  | _ => p.setField k (.arr [])

/-- Sanitization of `profileData.preferences` (profile_new.js lines
164-184). -/
def sanitizePreferences (v : JVal) : JVal :=
  if v.objectLike then
    ensureFieldArray (ensureFieldArray v ("employment_type")) ("work_mode")
  else defaultPreferences

/-- Sanitization of `profileData.links` (profile_new.js lines 187-196):
a non-object value is replaced wholesale; an object is left as it is. -/
def sanitizeLinks (v : JVal) : JVal :=
  if v.objectLike then v else defaultLinks

/-- The in-place `tech_stack` repair the map callback at profile_new.js
lines 200-206 performs on one project element when the property access
`proj.tech_stack` does not throw: a string is split into trimmed
non-empty tags, a non-array becomes an empty array, an array is kept.
A write to a non-object element is the identity (a named property on an
array is not JSON-observable, and primitives silently ignore the write
in sloppy mode). -/
def fixTechStackVal (proj : JVal) : JVal :=
  match proj.getField ("tech_stack") with
  | some (.str s) =>
      proj.setField ("tech_stack") (.arr ((splitTags s).map JVal.str))
  | some (.arr _) => proj
  | _ => proj.setField ("tech_stack") (.arr [])

/-- The map callback at profile_new.js lines 200-207 on one project
element.  On a null (or undefined) element the property access
`proj.tech_stack` at line 201 throws a TypeError, embedded as `none`;
on every other element the callback returns the repaired element. -/
def fixProjectTechStack (proj : JVal) : Option JVal :=
  match proj with
  | .null => none
  | _ => some (fixTechStackVal proj)

/-- The value of `profileData.projects.map(...)` when the traversal
completes: `none` when the callback throws on some element (the map
visits elements left to right, so the exception aborts at the first
null element), otherwise the repaired list. -/
def sanitizeProjectsList : List JVal → Option (List JVal)
  | [] => some []
  | proj :: rest =>
      match fixProjectTechStack proj with
      | none => none
      | some q =>
          match sanitizeProjectsList rest with
          | none => none
          | some qs => some (q :: qs)

/-- The in-memory content of the projects array after the map at
profile_new.js lines 199-208, whether the call returns or the TypeError
unwinds mid-traversal: the callback mutates each visited element object
in place before the next element is read, so on a throw at a null
element the elements already visited keep their repaired `tech_stack`,
while the throwing element and everything after it stay untouched (the
assignment of the new mapped array to `profileData.projects` happens
only on normal completion, but both arrays hold the same element
references, so the observable content is this list in either case). -/
def sanitizeProjectsState : List JVal → List JVal
  | [] => []
  | proj :: rest =>
      match fixProjectTechStack proj with
      | none => proj :: rest
      | some q => q :: sanitizeProjectsState rest

/-- The guarded `profileData.projects.map(...)` at profile_new.js lines
199-208 as a state transformer on the projects field (the guard
`Array.isArray` is kept even though the earlier normalization makes it
always true). -/
def sanitizeProjects (v : JVal) : JVal :=
  match v with
  | .arr ps => .arr (sanitizeProjectsState ps)
  | w => w

/-- The same projects pass as observed by the caller: `some` of the new
array on normal completion, `none` when the traversal throws. -/
def sanitizeProjectsRun (v : JVal) : Option JVal :=
  match v with
  | .arr ps =>
      match sanitizeProjectsList ps with
      | none => none
      | some qs => some (.arr qs)
  | w => some w

/-- Embedding of `sanitizeProfileData()` (profile_new.js lines 143-211)
as a transformer of the in-memory draft: the value of `profileData`
after the call, whether it returns normally or unwinds with the
TypeError thrown by the projects traversal on a null element.  The
array, preferences and links normalizations (lines 147-196) complete
before the projects map runs, so they are applied in either case;
`sanitizeProfileDataRun` tells whether the call returned. -/
def sanitizeProfileData (p : Profile) : Profile :=
  { p with
    education := ensureArray p.education
    skills := ensureArray p.skills
    experience := ensureArray p.experience
    projects := sanitizeProjects (ensureArray p.projects)
    certifications := ensureArray p.certifications
    preferences := sanitizePreferences p.preferences
    links := sanitizeLinks p.links }

/-- Embedding of a call to `sanitizeProfileData()` as observed by its
callers: `some` of the normalized draft when the call returns, `none`
when the projects traversal hits a null element and the TypeError
escapes to the caller (leaving the draft at `sanitizeProfileData p`). -/
def sanitizeProfileDataRun (p : Profile) : Option Profile :=
  match sanitizeProjectsRun (ensureArray p.projects) with
  | none => none
  | some projs =>
      some { p with
        education := ensureArray p.education
        skills := ensureArray p.skills
        experience := ensureArray p.experience
        projects := projs
        certifications := ensureArray p.certifications
        preferences := sanitizePreferences p.preferences
        links := sanitizeLinks p.links }

/-!
Form-field normalization helpers used by the save handlers of the
sub-collection editors in profile_new.js.
-/

/-- Value of a hexadecimal digit character. -/
def hexDigitVal (c : Char) : Nat :=
  if c.isDigit then c.toNat - 48
  else if 'a' ≤ c ∧ c ≤ 'f' then c.toNat - 87
  else c.toNat - 55

/-- Whether a character is a hexadecimal digit. -/
def isHexDigitChar (c : Char) : Bool :=
  c.isDigit ∨ ('a' ≤ c ∧ c ≤ 'f') ∨ ('A' ≤ c ∧ c ≤ 'F')

/-- Numeric value of a digit string in the given base. -/
def digitsToNat (base : Nat) (ds : List Char) : Nat :=
  ds.foldl (fun a c => a * base + hexDigitVal c) 0

/-- Embedding of JavaScript `parseInt(s)` with no radix argument:
leading whitespace is skipped, an optional sign is read, a `0x`/`0X`
prefix switches to base 16, the longest digit prefix is converted, and
trailing garbage is ignored.  `none` stands for NaN (no digits). -/
def jsParseInt (s : String) : Option Int :=
  let cs := s.toList.dropWhile Char.isWhitespace
  let sgn : Int := match cs with
    | '-' :: _ => -1
    | _ => 1
  let cs₁ := match cs with
    | '-' :: r => r
    | '+' :: r => r
    | r => r
  match cs₁ with
  | '0' :: c :: r =>
      if c = 'x' ∨ c = 'X' then
        let ds := r.takeWhile isHexDigitChar
        if ds.isEmpty then none else some (sgn * (digitsToNat 16 ds : Int))
      else
        some (sgn * (digitsToNat 10 (('0' :: c :: r).takeWhile Char.isDigit) : Int))
  | _ =>
      let ds := cs₁.takeWhile Char.isDigit
      if ds.isEmpty then none else some (sgn * (digitsToNat 10 ds : Int))

/-- Embedding of JavaScript `parseFloat(s)`: the longest prefix that is
a valid signed decimal literal (or Infinity) after skipping leading
whitespace, returned as the literal string consumed; `none` stands for
NaN.  The stored JavaScript number is the IEEE-754 double denoted by
this literal; no claim under verification compares these values
numerically, so the literal itself is kept as the representative. -/
def jsParseFloat (s : String) : Option String :=
  let cs := s.toList.dropWhile Char.isWhitespace
  let sgnChars : List Char := match cs with
    | '-' :: _ => ['-']
    | '+' :: _ => ['+']
    | _ => []
  let cs₁ := cs.drop sgnChars.length
  if cs₁.take 8 = ("Infinity").toList then
    some (String.mk (sgnChars ++ ("Infinity").toList))
  else
    let intPart := cs₁.takeWhile Char.isDigit
    let afterInt := cs₁.drop intPart.length
    let fracChars : List Char := match afterInt with
      | '.' :: r => '.' :: r.takeWhile Char.isDigit
      | _ => []
    let afterFrac := afterInt.drop fracChars.length
    if intPart.isEmpty ∧ fracChars.length ≤ 1 then none
    else
      let expChars : List Char := match afterFrac with
        | e :: r =>
            if e = 'e' ∨ e = 'E' then
              let esgn : List Char := match r with
                | '-' :: _ => ['-']
                | '+' :: _ => ['+']
                | _ => []
              let ds := (r.drop esgn.length).takeWhile Char.isDigit
              if ds.isEmpty then [] else e :: (esgn ++ ds)
            else []
        | [] => []
      some (String.mk (sgnChars ++ intPart ++ fracChars ++ expChars))

/-- The empty-string-to-null idiom `(v && v.trim()) ? v.trim() : null`
used for every optional text field in the editors. -/
def trimOrNull (v : String) : Option String :=
  if v ≠ "" ∧ jsTrim v ≠ "" then some (jsTrim v) else none

/-!
Sub-collection editors.  Each editor in profile_new.js consists of a
module-level entries array inside `profileData`, a module-level editing
sentinel initialized to -1, and a modal whose visibility is toggled by a
CSS class; the three are gathered into one state record per editor.  The
submitted form fields live in the DOM and are passed to the save
handlers as an explicit argument.  Save handlers also emit the
`showNotification` message they display, so that warnings are
observable.
-/

/-- State of one sub-collection editor: the draft sub-array, the editing
index sentinel (-1 meaning "adding, not editing"), and whether the modal
is open. -/
structure EditorState (α : Type) where
  entries : List α
  editing : Int
  modalOpen : Bool

/-- One required input of a wizard step: the text of the label element
preceding it (none when that element or its text is absent) and its
current value. -/
structure RequiredInput where
  label : Option String
  value : String

/-- Education form fields (DOM inputs read by `saveEducationEntry`). -/
structure EducationForm where
  edu_level : String
  edu_board_university : String
  edu_school_college : String
  edu_year : String
  edu_percentage_cgpa : String
  edu_degree : String
  edu_branch : String

/-- An education record as built by `saveEducationEntry`. -/
structure EducationEntry where
  level : String
  board_university : String
  school_college : String
  year : Option Int
  percentage_cgpa : Option String
  degree : Option String
  branch : Option String

/-- The record literal built at profile_new.js lines 447-455. -/
def mkEducation (f : EducationForm) : EducationEntry :=
  { level := f.edu_level
    board_university := f.edu_board_university
    school_college := f.edu_school_college
    year := jsParseInt f.edu_year
    percentage_cgpa := jsParseFloat f.edu_percentage_cgpa
    degree := trimOrNull f.edu_degree
    branch := trimOrNull f.edu_branch }

/-- Embedding of `openEducationForm()` (lines 413-419): clears the
sentinel, resets the DOM form, opens the modal. -/
def openEducationForm (st : EditorState EducationEntry) : EditorState EducationEntry :=
  { st with editing := -1, modalOpen := true }

/-- Embedding of `closeEducationModal()` (lines 421-424). -/
def closeEducationModal (st : EditorState EducationEntry) : EditorState EducationEntry :=
  { st with modalOpen := false, editing := -1 }

/-- Embedding of `saveEducationEntry()` (lines 443-466).  With a
non-negative sentinel the entry at that index is overwritten in place
and with the -1 sentinel the entry is appended; the list is re-rendered,
the modal closed (which also resets the sentinel), and a success
notification shown.  `List.set` is a no-op when the sentinel is at or
past the length; the JavaScript assignment would instead extend the
array there, a state unreachable through the UI and outside every claim,
which all constrain the sentinel to -1 or a valid index. -/
def saveEducationEntry (f : EducationForm) (st : EditorState EducationEntry) :
    EditorState EducationEntry × List String :=
  let education := mkEducation f
  let entries :=
    if st.editing ≥ 0 then st.entries.set st.editing.toNat education
    else st.entries ++ [education]
  ({ entries := entries, editing := -1, modalOpen := false },
   [("Education entry saved")])

/-- Embedding of `deleteEducation(index)` (lines 468-474): after an
interactive confirmation, `splice(index, 1)`. -/
def deleteEducation (confirmed : Bool) (index : Nat)
    (st : EditorState EducationEntry) : EditorState EducationEntry :=
  if confirmed then { st with entries := st.entries.eraseIdx index } else st

/-- Skill form fields (DOM inputs read by `saveSkillEntry`). -/
structure SkillForm where
  skill_name : String
  skill_proficiency : String
  skill_category : String

/-- A skill record as built by `saveSkillEntry`. -/
structure SkillEntry where
  name : String
  proficiency : String
  category : Option String

/-- The record literal built at profile_new.js lines 540-544. -/
def mkSkill (f : SkillForm) : SkillEntry :=
  { name := jsTrim f.skill_name
    proficiency := f.skill_proficiency
    category := trimOrNull f.skill_category }

/-- Embedding of `saveSkillEntry()` (lines 537-555). -/
def saveSkillEntry (f : SkillForm) (st : EditorState SkillEntry) :
    EditorState SkillEntry × List String :=
  let skill := mkSkill f
  let entries :=
    if st.editing ≥ 0 then st.entries.set st.editing.toNat skill
    else st.entries ++ [skill]
  ({ entries := entries, editing := -1, modalOpen := false }, [("Skill saved")])

/-- Embedding of `openSkillForm()` (lines 511-517). -/
def openSkillForm (st : EditorState SkillEntry) : EditorState SkillEntry :=
  { st with editing := -1, modalOpen := true }

/-- Embedding of `closeSkillModal()` (lines 519-522). -/
def closeSkillModal (st : EditorState SkillEntry) : EditorState SkillEntry :=
  { st with modalOpen := false, editing := -1 }

/-- Embedding of `deleteSkill(index)` (lines 557-563). -/
def deleteSkill (confirmed : Bool) (index : Nat)
    (st : EditorState SkillEntry) : EditorState SkillEntry :=
  if confirmed then { st with entries := st.entries.eraseIdx index } else st

/-- Experience form fields (DOM inputs read by `saveExperienceEntry`;
`exp_is_current` is the checkbox state). -/
structure ExperienceForm where
  exp_company : String
  exp_role : String
  exp_start_date : String
  exp_end_date : String
  exp_is_current : Bool
  exp_description : String
  exp_location : String

/-- An experience record as built by `saveExperienceEntry`. -/
structure ExperienceEntry where
  company : String
  role : String
  start_date : String
  end_date : Option String
  is_current : Bool
  description : String
  location : Option String

/-- The record literal built at profile_new.js lines 631-639. -/
def mkExperience (f : ExperienceForm) : ExperienceEntry :=
  { company := jsTrim f.exp_company
    role := jsTrim f.exp_role
    start_date := jsTrim f.exp_start_date
    end_date := trimOrNull f.exp_end_date
    is_current := f.exp_is_current
    description := jsTrim f.exp_description
    location := trimOrNull f.exp_location }

/-- Embedding of `openExperienceForm()` (lines 597-603). -/
def openExperienceForm (st : EditorState ExperienceEntry) :
    EditorState ExperienceEntry :=
  { st with editing := -1, modalOpen := true }

/-- Embedding of `closeExperienceModal()` (lines 605-608). -/
def closeExperienceModal (st : EditorState ExperienceEntry) :
    EditorState ExperienceEntry :=
  { st with modalOpen := false, editing := -1 }

/-- Embedding of `saveExperienceEntry()` (lines 627-650). -/
def saveExperienceEntry (f : ExperienceForm) (st : EditorState ExperienceEntry) :
    EditorState ExperienceEntry × List String :=
  let experience := mkExperience f
  let entries :=
    if st.editing ≥ 0 then st.entries.set st.editing.toNat experience
    else st.entries ++ [experience]
  ({ entries := entries, editing := -1, modalOpen := false },
   [("Experience saved")])

/-- Embedding of `deleteExperience(index)` (lines 652-658). -/
def deleteExperience (confirmed : Bool) (index : Nat)
    (st : EditorState ExperienceEntry) : EditorState ExperienceEntry :=
  if confirmed then { st with entries := st.entries.eraseIdx index } else st

/-- Certification form fields (DOM inputs read by
`saveCertificationEntry`). -/
structure CertificationForm where
  cert_name : String
  cert_issuer : String
  cert_issue_date : String
  cert_expiry_date : String
  cert_credential_id : String
  cert_credential_url : String

/-- A certification record as built by `saveCertificationEntry`. -/
structure CertificationEntry where
  name : String
  issuer : String
  issue_date : String
  expiry_date : Option String
  credential_id : Option String
  credential_url : Option String

/-- The record literal built at profile_new.js lines 850-857. -/
def mkCertification (f : CertificationForm) : CertificationEntry :=
  { name := jsTrim f.cert_name
    issuer := jsTrim f.cert_issuer
    issue_date := jsTrim f.cert_issue_date
    expiry_date := trimOrNull f.cert_expiry_date
    credential_id := trimOrNull f.cert_credential_id
    credential_url := trimOrNull f.cert_credential_url }

/-- Embedding of `openCertificationForm()` (lines 816-822). -/
def openCertificationForm (st : EditorState CertificationEntry) :
    EditorState CertificationEntry :=
  { st with editing := -1, modalOpen := true }

/-- Embedding of `closeCertificationModal()` (lines 824-827). -/
def closeCertificationModal (st : EditorState CertificationEntry) :
    EditorState CertificationEntry :=
  { st with modalOpen := false, editing := -1 }

/-- Embedding of `saveCertificationEntry()` (lines 845-868). -/
def saveCertificationEntry (f : CertificationForm)
    (st : EditorState CertificationEntry) :
    EditorState CertificationEntry × List String :=
  let certification := mkCertification f
  let entries :=
    if st.editing ≥ 0 then st.entries.set st.editing.toNat certification
    else st.entries ++ [certification]
  ({ entries := entries, editing := -1, modalOpen := false },
   [("Certification saved")])

/-- Embedding of `deleteCertification(index)` (lines 870-876). -/
def deleteCertification (confirmed : Bool) (index : Nat)
    (st : EditorState CertificationEntry) : EditorState CertificationEntry :=
  if confirmed then { st with entries := st.entries.eraseIdx index } else st

/-- Project form fields (DOM inputs read by `saveProjectEntry`). -/
structure ProjectForm where
  proj_title : String
  proj_description : String
  proj_tech_stack : String
  proj_link : String
  proj_github_link : String
  proj_start_date : String
  proj_end_date : String

/-- A project record as built by `saveProjectEntry`. -/
structure ProjectEntry where
  title : String
  description : String
  tech_stack : List String
  link : Option String
  github_link : Option String
  start_date : Option String
  end_date : Option String

/-- The record literal built at profile_new.js lines 746-754. -/
def mkProject (f : ProjectForm) : ProjectEntry :=
  { title := jsTrim f.proj_title
    description := jsTrim f.proj_description
    tech_stack := splitTags f.proj_tech_stack
    link := trimOrNull f.proj_link
    github_link := trimOrNull f.proj_github_link
    start_date := trimOrNull f.proj_start_date
    end_date := trimOrNull f.proj_end_date }

/-- Embedding of `openProjectForm()` (lines 694-700). -/
def openProjectForm (st : EditorState ProjectEntry) : EditorState ProjectEntry :=
  { st with editing := -1, modalOpen := true }

/-- Embedding of `closeProjectModal()` (lines 702-705). -/
def closeProjectModal (st : EditorState ProjectEntry) : EditorState ProjectEntry :=
  { st with modalOpen := false, editing := -1 }

/-- Embedding of `saveProjectEntry()` (lines 731-765): the tech-stack
input is split into tags; when no tag survives, a warning is shown and
the handler returns with no state change; otherwise the built record is
stored exactly as in the education editor. -/
def saveProjectEntry (f : ProjectForm) (st : EditorState ProjectEntry) :
    EditorState ProjectEntry × List String :=
  let tech_stack := splitTags f.proj_tech_stack
  if tech_stack.isEmpty then
    (st, [("Please add at least one technology in Tech Stack")])
  else
    let project := mkProject f
    let entries :=
      if st.editing ≥ 0 then st.entries.set st.editing.toNat project
      else st.entries ++ [project]
    ({ entries := entries, editing := -1, modalOpen := false },
     [("Project saved")])

/-- Embedding of `deleteProject(index)` (lines 767-773). -/
def deleteProject (confirmed : Bool) (index : Nat)
    (st : EditorState ProjectEntry) : EditorState ProjectEntry :=
  if confirmed then { st with entries := st.entries.eraseIdx index } else st

/-!
Wizard navigation (profile_new.js lines 325-407).  The required inputs
of the current step live in the DOM and are passed explicitly; the
navigation functions return the new `currentStep` together with the
warnings shown.
-/

/-- The constant `totalSteps` of profile_new.js. -/
def totalSteps : Nat := 5

/-- JavaScript `t.replace(Char.ofNat 42, empty)` on the label text:
`String.prototype.replace` with a string pattern replaces only the first
occurrence of the asterisk. -/
def replaceFirstStar (t : String) : String :=
  match (splitOnChar '*' t.toList).map String.mk with
  | [] => t
  | [_] => t
  | x :: rest => x ++ String.intercalate ("*") rest

/-- The label derivation
`input.previousElementSibling?.textContent?.replace(...).trim() || "This field"`
at profile_new.js line 388. -/
def fieldLabel (inp : RequiredInput) : String :=
  match inp.label with
  | none => ("This field")
  | some t =>
      let r := jsTrim (replaceFirstStar t)
      if r = "" then ("This field") else r

/-- The check `x.length === 0` as applied to a draft field: length of an
array is its size, of a string its character count; any other value
either has no `length` property (so the strict comparison with 0 is
false) or carries one explicitly as an object field.  A null draft field
would make the JavaScript line throw; every caller runs after
`sanitizeProfileData`, which makes the field an array. -/
def jsLengthIsZero : JVal → Bool
  | .arr xs => xs.isEmpty
  | .str s => s = ""
  | .obj fs =>
      match fs.lookup ("length") with
      | some (.int n) => n = 0
      | _ => false
  | _ => false

/-- Embedding of `validateStep(step)` (profile_new.js lines 382-407):
the first required input whose trimmed value is empty blocks with a
fill-in warning; step 2 additionally requires a non-empty education
array and step 3 a non-empty skills array.  Returns the verdict and the
warnings shown. -/
def validateStep (required : List RequiredInput) (p : Profile) (step : Nat) :
    Bool × List String :=
  match required.find? (fun inp => jsTrim inp.value = "") with
  | some inp => (false, [("Please fill in: ") ++ fieldLabel inp])
  | none =>
      if step = 2 ∧ jsLengthIsZero p.education then
        (false, [("Please add at least one education entry")])
      else if step = 3 ∧ jsLengthIsZero p.skills then
        (false, [("Please add at least one skill")])
      else (true, [])

/-- Embedding of `nextStep()` (lines 325-335): an invalid step blocks;
otherwise the counter advances only while below `totalSteps`. -/
def nextStep (required : List RequiredInput) (p : Profile) (step : Nat) :
    Nat × List String :=
  let v := validateStep required p step
  if ¬ v.1 then (step, v.2)
  else if step < totalSteps then (step + 1, v.2)
  else (step, v.2)

/-- Embedding of `prevStep()` (lines 337-343). -/
def prevStep (step : Nat) : Nat :=
  if step > 1 then step - 1 else step

/-!
jobs.js: page state and pagination.  `loadJobs` reads the three filter
selects from the DOM and issues one fetch; the embedding returns the
list of request URLs issued by a call.
-/

/-- The filter select values read by `loadJobs` (empty string meaning no
filter selected). -/
structure JobsFilters where
  jobType : String
  source : String
  location : String

/-- Module-level state of jobs.js: `currentPage` plus the DOM filter
values. -/
structure JobsState where
  currentPage : Int
  filters : JobsFilters

/-- The constant `limit` of jobs.js. -/
def jobsLimit : Nat := 20

/-- URL construction of `loadJobs` (jobs.js lines 38-41): page and limit
always, each filter only when its value is truthy. -/
def buildJobsUrl (page : Int) (f : JobsFilters) : String :=
  let base := ("/api/v1/jobs/list?page=") ++ toString page ++ ("&limit=")
      ++ toString jobsLimit
  let u₁ := if f.jobType ≠ "" then base ++ ("&job_type=") ++ f.jobType else base
  let u₂ := if f.source ≠ "" then u₁ ++ ("&source=") ++ f.source else u₁
  if f.location ≠ "" then u₂ ++ ("&location=") ++ f.location else u₂

/-- Embedding of `loadJobs()` (jobs.js lines 27-53): the single fetch it
issues. -/
def loadJobs (st : JobsState) : List String :=
  [buildJobsUrl st.currentPage st.filters]

/-- Embedding of `previousPage()` (jobs.js lines 96-101): only when the
page is above 1 is the counter decremented and `loadJobs` re-run; at
page 1 nothing happens and no fetch is issued. -/
def previousPage (st : JobsState) : JobsState × List String :=
  if st.currentPage > 1 then
    let st' := { st with currentPage := st.currentPage - 1 }
    (st', loadJobs st')
  else (st, [])

/-- Embedding of `nextPage()` (jobs.js lines 103-106): unconditionally
increments and re-runs `loadJobs`. -/
def nextPage (st : JobsState) : JobsState × List String :=
  let st' := { st with currentPage := st.currentPage + 1 }
  (st', loadJobs st')

/-!
analytics_dashboard.js: chart type resolution, chart construction, and
CSV export.
-/

/-- The `validChartTypes` array declared at line 331 of
analytics_dashboard.js. -/
def validChartTypes : List String :=
  [("bar"), ("line"), ("pie"), ("doughnut"), ("radar"), ("polarArea")]

/-- The chart-type resolution performed by `renderChart` (lines
324-334): `table` (case-insensitively) means no chart at all; a type
whose lowercasing is found in `validChartTypes` is used as given; any
other type falls back to `bar`.  Note that the lowercased input is
compared against the mixed-case list entry `polarArea`. -/
def resolveChartType (chartType : String) : Option String :=
  if jsToLower chartType = ("table") then none
  else if validChartTypes.contains (jsToLower chartType) then some chartType
  else some ("bar")

/-- Property read that yields the JavaScript `undefined`/absent case as
`JVal.null`, matching how `renderChart` only ever inspects these values
through truthiness and `Array.isArray`. -/
def getProp (v : JVal) (k : String) : JVal :=
  (v.getField k).getD .null

/-- Index access `v[0]` as used on `chartData.datasets`. -/
def index0 : JVal → JVal
  | .arr (x :: _) => x
  | .obj fs => (fs.lookup ("0")).getD .null
  | _ => .null

/-- The two-shape extraction of labels and data values at
analytics_dashboard.js lines 337-358. -/
def extractChartArrays (chartData : JVal) : JVal × JVal :=
  if (getProp chartData ("labels")).truthy ∧ (getProp chartData ("labels")).isArray then
    let labels := getProp chartData ("labels")
    if (getProp chartData ("datasets")).truthy
        ∧ (index0 (getProp chartData ("datasets"))).truthy then
      (labels, getProp (index0 (getProp chartData ("datasets"))) ("data"))
    else if (getProp chartData ("data")).truthy then
      (labels, getProp chartData ("data"))
    else (labels, .arr [])
  else if (getProp chartData ("datasets")).truthy
      ∧ (index0 (getProp chartData ("datasets"))).truthy then
    let ds₀ := index0 (getProp chartData ("datasets"))
    let labels := if (getProp ds₀ ("labels")).truthy then getProp ds₀ ("labels")
      else .arr []
    (labels, getProp ds₀ ("data"))
  else (.arr [], .arr [])

/-- The Chart.js instance constructed by `renderChart`: its type, the
labels array, and the single dataset (label and data array) of its
configuration. -/
structure ChartInstance where
  typ : String
  labels : JVal
  data : JVal
  datasetLabel : JVal

/-- Embedding of `renderChart(chartType, chartData)` (lines 309-432).
The previous chart instance is destroyed and nulled unconditionally at
the top; the return value is the new value of `currentChart` (`none`
for the table type, where the function returns before constructing a
chart). -/
def renderChart (chartType : String) (chartData : JVal) : Option ChartInstance :=
  match resolveChartType chartType with
  | none => none
  | some t =>
      let ex := extractChartArrays chartData
      some { typ := t
             labels := ex.1
             data := ex.2
             datasetLabel :=
               if (getProp chartData ("title")).truthy then getProp chartData ("title")
               else .str ("Value") }

/-- The dashboard view state touched by `displayResults`: the module
variable `currentChart`, the hidden class of `chartSection`, and the
rows last passed to `renderTable`. -/
structure DashboardState where
  currentChart : Option ChartInstance
  chartSectionHidden : Bool
  renderedTable : Option (List JVal)

/-- Embedding of the chart and table handling of `displayResults(data)`
(lines 219-258): a chart type equal to `table` after lowercasing hides
the chart section and leaves `currentChart` untouched (`renderChart` is
not called); any other type shows the section and rebuilds the chart;
the data table is rendered in both cases. -/
def displayResults (chart_type : String) (chart_data : JVal)
    (raw_data : List JVal) (st : DashboardState) : DashboardState :=
  if jsToLower chart_type = ("table") then
    { st with chartSectionHidden := true, renderedTable := some raw_data }
  else
    { currentChart := renderChart chart_type chart_data
      chartSectionHidden := false
      renderedTable := some raw_data }

mutual

/-- JavaScript `String(v)` on an embedded value, with array elements
joined by commas (nested null and undefined rendering as empty, per
`Array.prototype.toString`). -/
def jsString : JVal → String
  | .null => ("null")
  | .str s => s
  | .int n => toString n
  | .bool b => cond b ("true") ("false")
  | .obj _ => ("[object Object]")
  | .arr xs => String.intercalate (",") (jsStringElems xs)

/-- Stringification of array elements for `jsString`. -/
def jsStringElems : List JVal → List String
  | [] => []
  | .null :: vs => ("") :: jsStringElems vs
  | v :: vs => jsString v :: jsStringElems vs

end

/-- The global regex replacement `.replace` of each double quote by two
double quotes used by `exportToCSV`. -/
def escapeQuotes (s : String) : String :=
  String.mk (s.toList.flatMap (fun c => if c = '"' then ['"', '"'] else [c]))

/-- Wrapping of one CSV field in double quotes after escaping. -/
def quoteCell (s : String) : String :=
  ("\"") ++ escapeQuotes s ++ ("\"")

/-- JavaScript `Object.keys` on a row value. -/
def objKeys : JVal → List String
  | .obj fs => fs.map Prod.fst
  | .arr xs => (List.range xs.length).map toString
  | .str s => (List.range s.length).map toString
  | _ => []

/-- Property read `row[col]` during CSV serialization, `none` meaning
`undefined`. -/
def jsGetProp : JVal → String → Option JVal
  | .obj fs, k => fs.lookup k
  | .arr xs, k =>
      match k.toNat? with
      | some i => xs.get? i
      | none => none
  | _, _ => none

/-- One CSV cell (analytics_dashboard.js lines 528-533): null and
undefined serialize as the empty string without quotes; everything else
is stringified, quote-escaped, and wrapped in quotes. -/
def csvCell (v : Option JVal) : String :=
  match v with
  | none => ("")
  | some .null => ("")
  | some w => quoteCell (jsString w)

/-- The CSV header line: the column names of the first row, each quoted
and escaped, joined by commas. -/
def csvHeaderLine (columns : List String) : String :=
  String.intercalate (",") (columns.map quoteCell)

/-- One CSV data line for a row, under the given column set. -/
def csvRowLine (columns : List String) (row : JVal) : String :=
  String.intercalate (",") (columns.map (fun c => csvCell (jsGetProp row c)))

/-- The lines (header first, then one per row in order) that
`exportToCSV` concatenates, each with a trailing newline. -/
def csvLines (rows : List JVal) : List String :=
  match rows with
  | [] => []
  | r₀ :: _ => csvHeaderLine (objKeys r₀) :: rows.map (csvRowLine (objKeys r₀))

/-- Embedding of `exportToCSV()` (lines 516-548): `none` when there are
no rows (the alert branch, nothing downloaded); otherwise the exact text
of the downloaded file. -/
def exportToCSV (rows : List JVal) : Option String :=
  if rows.isEmpty then none
  else some (String.join ((csvLines rows).map (fun l => l ++ "\n")))

/-!
Shape predicates.  `profileShapeOK` is the exact set of fixed points of
`sanitizeProfileData`, read off from its branches; the claims about
idempotence and about no-effect-on-already-normalized drafts are stated
with it.
-/

/-- Whether an optional property value is present and an array. -/
def isArrOpt : Option JVal → Bool
  | some (.arr _) => true
  | _ => false

/-- Whether a value is a plain (non-array) object. -/
def JVal.isObj : JVal → Bool
  | .obj _ => true
  | _ => false

/-- Shapes of `preferences` that `sanitizePreferences` leaves unchanged:
an object whose employment_type and work_mode are arrays, or an array
(object-typed for the guard, and named-property writes on it are not
JSON-observable). -/
def prefsShapeOK (v : JVal) : Bool :=
  (v.isObj && isArrOpt (v.getField ("employment_type"))
      && isArrOpt (v.getField ("work_mode")))
    || v.isArray

/-- Shapes of one projects element on which the map callback completes
and is the identity: an object whose tech_stack is an array, or a
non-object other than null (on null the callback throws). -/
def projShapeOK (v : JVal) : Bool :=
  match v with
  | .null => false
  | _ => if v.isObj then isArrOpt (v.getField ("tech_stack")) else true

/-- Shapes of the projects field that the projects pass leaves
unchanged: an array of shape-correct elements. -/
def projectsShapeOK : JVal → Bool
  | .arr ps => ps.all projShapeOK
  | _ => false

/-- The fixed-point characterization of `sanitizeProfileData`. -/
def profileShapeOK (p : Profile) : Bool :=
  p.education.isArray && p.skills.isArray && p.experience.isArray
    && projectsShapeOK p.projects && p.certifications.isArray
    && prefsShapeOK p.preferences && p.links.objectLike

/-- The known preference keys named by the specification. -/
def knownPreferenceKeys : List String :=
  [("employment_type"), ("work_mode"), ("preferred_roles"),
   ("preferred_industries"), ("expected_salary"), ("willing_to_relocate"),
   ("notice_period"), ("availability_date"), ("preferred_locations")]

/-- The known link keys named by the specification. -/
def knownLinkKeys : List String :=
  [("linkedin"), ("github"), ("portfolio"), ("resume_link"), ("twitter"),
   ("leetcode")]

/-- Whether a value carries every key of the list. -/
def hasKeys (v : JVal) (ks : List String) : Bool :=
  ks.all (fun k => (v.getField k).isSome)

/-!
Concrete inputs used to instantiate the verified statements.
-/

/-- A draft whose preferences and links are objects with no keys at
all (a legal backend payload shape). -/
def emptySubrecordsProfile : Profile :=
  { education := .arr [], skills := .arr [], experience := .arr []
    projects := .arr [], certifications := .arr []
    preferences := .obj [], links := .obj [], scalars := [] }

/-- A draft whose preferences and links are entirely absent (null). -/
def nullSubrecordsProfile : Profile :=
  { education := .null, skills := .null, experience := .null
    projects := .null, certifications := .null
    preferences := .null, links := .null
    scalars := [(("full_name"), .str ("Ada"))] }

/-- A draft whose projects array contains a null element after an
object element (a legal backend payload on which the sanitizer throws
mid-traversal). -/
def nullElementProjectsProfile : Profile :=
  { education := .arr [], skills := .arr [], experience := .arr []
    projects := .arr [.obj [(("title"), .str ("P")),
                            (("tech_stack"), .str ("a,b"))], .null]
    certifications := .arr []
    preferences := defaultPreferences, links := defaultLinks, scalars := [] }

/-- A fully normalized draft (a fixed point of the sanitizer). -/
def normalizedProfile : Profile :=
  { education := .arr [.obj [(("level"), .str ("BTech"))]]
    skills := .arr [], experience := .arr []
    projects := .arr [.obj [(("title"), .str ("P")),
                            (("tech_stack"), .arr [.str ("Lean")])]]
    certifications := .arr []
    preferences := defaultPreferences, links := defaultLinks
    scalars := [(("full_name"), .str ("Ada"))] }

/-- A concrete submitted education form. -/
def eduForm₀ : EducationForm :=
  { edu_level := ("B.Tech"), edu_board_university := ("JNTU")
    edu_school_college := ("Ascend College"), edu_year := ("2024")
    edu_percentage_cgpa := ("8.5"), edu_degree := (" B.Tech ")
    edu_branch := ("") }

/-- A concrete stored education entry. -/
def eduEntry₀ : EducationEntry :=
  { level := ("Intermediate"), board_university := ("State Board")
    school_college := ("Junior College"), year := some 2020
    percentage_cgpa := some ("92.1"), degree := none, branch := none }

/-- A second concrete stored education entry. -/
def eduEntry₁ : EducationEntry :=
  { level := ("SSC"), board_university := ("State Board")
    school_college := ("High School"), year := some 2018
    percentage_cgpa := some ("9.2"), degree := none, branch := none }

/-- A concrete submitted skill form. -/
def skillForm₀ : SkillForm :=
  { skill_name := (" Lean ") , skill_proficiency := ("Advanced")
    skill_category := ("") }

/-- A concrete stored skill entry. -/
def skillEntry₀ : SkillEntry :=
  { name := ("Python"), proficiency := ("Intermediate"), category := none }

/-- A concrete submitted project form with two technology tags. -/
def projForm₀ : ProjectForm :=
  { proj_title := (" Portal "), proj_description := ("A web app")
    proj_tech_stack := (" js , css ,, "), proj_link := ("")
    proj_github_link := (" g "), proj_start_date := (""), proj_end_date := ("") }

/-- A concrete submitted project form whose tag input dissolves into no
tags. -/
def projFormNoTags : ProjectForm :=
  { proj_title := ("T"), proj_description := ("D")
    proj_tech_stack := (" ,  , "), proj_link := ("x")
    proj_github_link := (""), proj_start_date := (""), proj_end_date := ("") }

/-- A concrete stored project entry. -/
def projEntry₀ : ProjectEntry :=
  { title := ("Old"), description := ("Old project")
    tech_stack := [("c")], link := none, github_link := none
    start_date := none, end_date := none }

/-- An education editor holding two entries, not editing. -/
def eduState₀ : EditorState EducationEntry :=
  { entries := [eduEntry₀, eduEntry₁], editing := -1, modalOpen := false }

/-- An education editor holding two entries, editing index 1. -/
def eduState₁ : EditorState EducationEntry :=
  { entries := [eduEntry₀, eduEntry₁], editing := 1, modalOpen := true }

/-- A skill editor holding one entry, not editing. -/
def skillState₀ : EditorState SkillEntry :=
  { entries := [skillEntry₀], editing := -1, modalOpen := false }

/-- A concrete submitted experience form. -/
def expForm₀ : ExperienceForm :=
  { exp_company := (" Acme "), exp_role := ("Intern")
    exp_start_date := ("2024-01"), exp_end_date := ("")
    exp_is_current := true, exp_description := ("Work"), exp_location := (" ") }

/-- A concrete stored experience entry. -/
def expEntry₀ : ExperienceEntry :=
  { company := ("Beta"), role := ("Dev"), start_date := ("2023-01")
    end_date := some ("2023-06"), is_current := false
    description := ("Past work"), location := none }

/-- An experience editor holding one entry, not editing. -/
def expState₀ : EditorState ExperienceEntry :=
  { entries := [expEntry₀], editing := -1, modalOpen := false }

/-- A concrete submitted certification form. -/
def certForm₀ : CertificationForm :=
  { cert_name := (" CKA "), cert_issuer := ("CNCF")
    cert_issue_date := ("2024-05"), cert_expiry_date := ("")
    cert_credential_id := (" id9 "), cert_credential_url := ("") }

/-- A concrete stored certification entry. -/
def certEntry₀ : CertificationEntry :=
  { name := ("AWS CP"), issuer := ("AWS"), issue_date := ("2023-02")
    expiry_date := none, credential_id := none, credential_url := none }

/-- A certification editor holding one entry, editing index 0. -/
def certState₀ : EditorState CertificationEntry :=
  { entries := [certEntry₀], editing := 0, modalOpen := true }

/-- A project editor holding one entry, editing index 0. -/
def projState₀ : EditorState ProjectEntry :=
  { entries := [projEntry₀], editing := 0, modalOpen := true }

/-- A project editor holding one entry, not editing. -/
def projState₁ : EditorState ProjectEntry :=
  { entries := [projEntry₀], editing := -1, modalOpen := false }

/-- Concrete required inputs of a wizard step, all filled. -/
def filledInputs : List RequiredInput :=
  [{ label := some ("Full Name *"), value := ("Ada") },
   { label := some ("Phone *"), value := (" 99 ") }]

/-- Concrete required inputs of a wizard step with one blank field. -/
def blankInputs : List RequiredInput :=
  [{ label := some ("Full Name *"), value := ("Ada") },
   { label := some ("Phone *"), value := ("  ") }]

/-- Concrete jobs state at page 1 with no filters. -/
def jobsPage1 : JobsState :=
  { currentPage := 1
    filters := { jobType := (""), source := (""), location := ("") } }

/-- Concrete jobs state at page 3 with filters selected. -/
def jobsPage3 : JobsState :=
  { currentPage := 3
    filters := { jobType := ("internship"), source := ("cdc_posted")
                 location := ("Hyderabad") } }

/-- The chart payload of the end-to-end example in the specification:
pie with labels A and B and values 3 and 7. -/
def pieChartData : JVal :=
  .obj [(("labels"), .arr [.str ("A"), .str ("B")]),
        (("datasets"), .arr [.obj [(("data"), .arr [.int 3, .int 7])]]),
        (("title"), .str ("Demo"))]

/-- A dashboard state with a live chart instance. -/
def dashWithChart : DashboardState :=
  { currentChart := some { typ := ("bar"), labels := .arr [], data := .arr []
                           datasetLabel := .str ("Value") }
    chartSectionHidden := false, renderedTable := none }

/-- Concrete raw rows for the CSV export, containing an embedded
double quote and a null cell. -/
def csvRows₀ : List JVal :=
  [.obj [(("name"), .str ("a\"b")), (("n"), .int 5)],
   .obj [(("name"), .null)]]

/-!
Lemmas about property assignment and the sanitizer.
-/

theorem lookup_setFieldList_self (fs : List (String × JVal)) (k : String)
    (v : JVal) : (setFieldList fs k v).lookup k = some v := by
  induction fs with
  | nil => simp [setFieldList, List.lookup]
  | cons kv rest ih =>
      obtain ⟨k', v'⟩ := kv
      by_cases h : k' = k
      · subst h
        simp [setFieldList, List.lookup]
      · have hb : (k == k') = false := beq_eq_false_iff_ne.mpr (Ne.symm h)
        simp [setFieldList, h, List.lookup, hb, ih]

theorem lookup_setFieldList_ne (fs : List (String × JVal)) (k k' : String)
    (v : JVal) (h : k' ≠ k) :
    (setFieldList fs k v).lookup k' = fs.lookup k' := by
  have hb : (k' == k) = false := beq_eq_false_iff_ne.mpr h
  induction fs with
  | nil => simp [setFieldList, List.lookup, hb]
  | cons kv rest ih =>
      obtain ⟨k₀, v₀⟩ := kv
      by_cases h₀ : k₀ = k
      · subst h₀
        simp [setFieldList, List.lookup, hb]
      · simp [setFieldList, h₀, List.lookup, ih]

theorem getField_setField_self (fs : List (String × JVal)) (k : String)
    (v : JVal) : ((JVal.obj fs).setField k v).getField k = some v := by
  simp [JVal.setField, JVal.getField, lookup_setFieldList_self]

theorem getField_setField_ne (fs : List (String × JVal)) (k k' : String)
    (v : JVal) (h : k' ≠ k) :
    ((JVal.obj fs).setField k v).getField k' = (JVal.obj fs).getField k' := by
  simp [JVal.setField, JVal.getField, lookup_setFieldList_ne _ _ _ _ h]

theorem setField_not_obj (p : JVal) (k : String) (v : JVal)
    (h : p.isObj = false) : p.setField k v = p := by
  cases p <;> simp_all [JVal.isObj, JVal.setField]

theorem getField_not_obj (p : JVal) (k : String) (h : p.isObj = false) :
    p.getField k = none := by
  cases p <;> simp_all [JVal.isObj, JVal.getField]

theorem isObj_setField (p : JVal) (k : String) (v : JVal) :
    (p.setField k v).isObj = p.isObj := by
  cases p <;> rfl

theorem ensureFieldArray_not_obj (p : JVal) (k : String)
    (h : p.isObj = false) : ensureFieldArray p k = p := by
  unfold ensureFieldArray
  rw [getField_not_obj p k h]
  exact setField_not_obj p k _ h

theorem ensureFieldArray_of_arr (p : JVal) (k : String)
    (h : isArrOpt (p.getField k) = true) : ensureFieldArray p k = p := by
  unfold ensureFieldArray
  split
  · rfl
  · rename_i hne
    exfalso
    cases hf : p.getField k with
    | none => rw [hf] at h; simp [isArrOpt] at h
    | some w =>
        cases w with
        | arr elems => exact hne elems hf
        | null => rw [hf] at h; simp [isArrOpt] at h
        | str s => rw [hf] at h; simp [isArrOpt] at h
        | int n => rw [hf] at h; simp [isArrOpt] at h
        | bool b => rw [hf] at h; simp [isArrOpt] at h
        | obj fs => rw [hf] at h; simp [isArrOpt] at h

theorem isObj_ensureFieldArray (p : JVal) (k : String) :
    (ensureFieldArray p k).isObj = p.isObj := by
  unfold ensureFieldArray
  split
  · rfl
  · exact isObj_setField p k _

theorem getField_ensureFieldArray_self (p : JVal) (k : String)
    (hp : p.isObj = true) :
    isArrOpt ((ensureFieldArray p k).getField k) = true := by
  cases p with
  | obj fs =>
      unfold ensureFieldArray
      split
      · rename_i xs hf
        simp [hf, isArrOpt]
      · rw [getField_setField_self]
        rfl
  | null => simp [JVal.isObj] at hp
  | str s => simp [JVal.isObj] at hp
  | int n => simp [JVal.isObj] at hp
  | bool b => simp [JVal.isObj] at hp
  | arr xs => simp [JVal.isObj] at hp

theorem getField_ensureFieldArray_ne (p : JVal) (k k' : String)
    (h : k' ≠ k) :
    (ensureFieldArray p k).getField k' = p.getField k' := by
  cases p with
  | obj fs =>
      unfold ensureFieldArray
      split
      · rfl
      · exact getField_setField_ne fs k k' _ h
  | null => rfl
  | str s => simp [ensureFieldArray, JVal.getField, JVal.setField]
  | int n => simp [ensureFieldArray, JVal.getField, JVal.setField]
  | bool b => simp [ensureFieldArray, JVal.getField, JVal.setField]
  | arr xs => simp [ensureFieldArray, JVal.getField, JVal.setField]

theorem isArrOpt_iff (o : Option JVal) :
    isArrOpt o = true ↔ ∃ xs, o = some (.arr xs) := by
  cases o with
  | none => simp [isArrOpt]
  | some w => cases w <;> simp [isArrOpt]

theorem objectLike_of_isObj (p : JVal) (h : p.isObj = true) :
    p.objectLike = true := by
  cases p <;> simp_all [JVal.isObj, JVal.objectLike, JVal.truthy,
    JVal.typeofObject]

theorem isArray_of_objectLike_not_obj (p : JVal) (h₁ : p.objectLike = true)
    (h₂ : p.isObj = false) : p.isArray = true := by
  cases p <;> simp_all [JVal.isObj, JVal.objectLike, JVal.truthy,
    JVal.typeofObject, JVal.isArray]

theorem ensureArray_isArray (v : JVal) : (ensureArray v).isArray = true := by
  cases v <;> rfl

theorem ensureArray_of_isArray (v : JVal) (h : v.isArray = true) :
    ensureArray v = v := by
  unfold ensureArray
  simp [h]

theorem sanitizePreferences_not_objectLike (v : JVal)
    (h : v.objectLike = false) : sanitizePreferences v = defaultPreferences := by
  unfold sanitizePreferences
  simp [h]

theorem sanitizePreferences_arr (v : JVal) (h : v.isArray = true) :
    sanitizePreferences v = v := by
  have ho : v.isObj = false := by
    cases v <;> simp_all [JVal.isArray, JVal.isObj]
  have hl : v.objectLike = true := by
    cases v <;> simp_all [JVal.isArray, JVal.objectLike, JVal.truthy,
      JVal.typeofObject]
  unfold sanitizePreferences
  simp [hl, ensureFieldArray_not_obj v _ ho,
    ensureFieldArray_not_obj v ("work_mode") ho]

theorem sanitizePreferences_emp (v : JVal) (h : v.isObj = true) :
    isArrOpt ((sanitizePreferences v).getField ("employment_type")) = true := by
  unfold sanitizePreferences
  simp [objectLike_of_isObj v h]
  rw [getField_ensureFieldArray_ne _ _ _ (by decide)]
  exact getField_ensureFieldArray_self v _ h

theorem sanitizePreferences_work (v : JVal) (h : v.isObj = true) :
    isArrOpt ((sanitizePreferences v).getField ("work_mode")) = true := by
  unfold sanitizePreferences
  simp [objectLike_of_isObj v h]
  refine getField_ensureFieldArray_self _ _ ?_
  rw [isObj_ensureFieldArray]
  exact h

theorem sanitizePreferences_other_key (v : JVal) (h : v.objectLike = true)
    (k : String) (h₁ : k ≠ ("employment_type")) (h₂ : k ≠ ("work_mode")) :
    (sanitizePreferences v).getField k = v.getField k := by
  unfold sanitizePreferences
  simp [h]
  rw [getField_ensureFieldArray_ne _ _ _ h₂, getField_ensureFieldArray_ne _ _ _ h₁]

theorem isObj_sanitizePreferences (v : JVal) (h : v.isObj = true) :
    (sanitizePreferences v).isObj = true := by
  unfold sanitizePreferences
  simp [objectLike_of_isObj v h, isObj_ensureFieldArray, h]

theorem prefsShapeOK_sanitizePreferences (v : JVal) :
    prefsShapeOK (sanitizePreferences v) = true := by
  by_cases h : v.objectLike = true
  · by_cases ho : v.isObj = true
    · unfold prefsShapeOK
      rw [isObj_sanitizePreferences v ho, sanitizePreferences_emp v ho,
        sanitizePreferences_work v ho]
      rfl
    · have ha := isArray_of_objectLike_not_obj v h
        (by simpa using ho)
      rw [sanitizePreferences_arr v ha]
      unfold prefsShapeOK
      simp [ha]
  · rw [sanitizePreferences_not_objectLike v (by simpa using h)]
    rfl

theorem sanitizePreferences_fixed (v : JVal) (h : prefsShapeOK v = true) :
    sanitizePreferences v = v := by
  by_cases ho : v.isObj = true
  · have hv : isArrOpt (v.getField ("employment_type")) = true
        ∧ isArrOpt (v.getField ("work_mode")) = true := by
      unfold prefsShapeOK at h
      have ha : v.isArray = false := by
        cases v <;> simp_all [JVal.isObj, JVal.isArray]
      rw [ho, ha] at h
      simpa using h
    unfold sanitizePreferences
    rw [if_pos]
    · rw [ensureFieldArray_of_arr v _ hv.1, ensureFieldArray_of_arr v _ hv.2]
    · simp [objectLike_of_isObj v ho]
  · have ha : v.isArray = true := by
      unfold prefsShapeOK at h
      have ho' : v.isObj = false := by simpa using ho
      rw [ho'] at h
      simpa using h
    exact sanitizePreferences_arr v ha

theorem sanitizeLinks_objectLike (v : JVal) :
    (sanitizeLinks v).objectLike = true := by
  unfold sanitizeLinks
  by_cases h : v.objectLike = true
  · simp [h]
  · simp [h]
    rfl

theorem sanitizeLinks_of_objectLike (v : JVal) (h : v.objectLike = true) :
    sanitizeLinks v = v := by
  unfold sanitizeLinks
  simp [h]

theorem sanitizeLinks_not_objectLike (v : JVal) (h : v.objectLike = false) :
    sanitizeLinks v = defaultLinks := by
  unfold sanitizeLinks
  simp [h]

theorem isObj_of_getField_some (v : JVal) (k : String) (w : JVal)
    (h : v.getField k = some w) : v.isObj = true := by
  cases v <;> simp_all [JVal.getField, JVal.isObj]

theorem projShapeOK_fixTechStackVal (v : JVal) (hn : v ≠ JVal.null) :
    projShapeOK (fixTechStackVal v) = true := by
  unfold fixTechStackVal
  split
  · rename_i s hf
    have ho := isObj_of_getField_some v _ _ hf
    cases v with
    | obj fs =>
        simp [JVal.setField, projShapeOK, JVal.getField,
          lookup_setFieldList_self, isArrOpt]
    | null => exact absurd rfl hn
    | str t => simp [JVal.isObj] at ho
    | int n => simp [JVal.isObj] at ho
    | bool b => simp [JVal.isObj] at ho
    | arr xs => simp [JVal.isObj] at ho
  · rename_i ts hf
    have ho := isObj_of_getField_some v _ _ hf
    cases v with
    | obj fs => simp [projShapeOK, hf, isArrOpt]
    | null => exact absurd rfl hn
    | str t => simp [JVal.isObj] at ho
    | int n => simp [JVal.isObj] at ho
    | bool b => simp [JVal.isObj] at ho
    | arr xs => simp [JVal.isObj] at ho
  · cases v with
    | null => exact absurd rfl hn
    | obj fs =>
        simp [JVal.setField, projShapeOK, JVal.getField,
          lookup_setFieldList_self, isArrOpt]
    | str t => simp [JVal.setField, projShapeOK, JVal.isObj]
    | int n => simp [JVal.setField, projShapeOK, JVal.isObj]
    | bool b => simp [JVal.setField, projShapeOK, JVal.isObj]
    | arr xs => simp [JVal.setField, projShapeOK, JVal.isObj]

theorem fixProjectTechStack_none_iff (v : JVal) :
    fixProjectTechStack v = none ↔ v = JVal.null := by
  cases v <;> simp [fixProjectTechStack]

theorem projShapeOK_fix (v q : JVal) (h : fixProjectTechStack v = some q) :
    projShapeOK q = true := by
  have hn : v ≠ JVal.null := by
    intro he
    rw [he] at h
    simp [fixProjectTechStack] at h
  have hq : q = fixTechStackVal v := by
    cases v with
    | null => exact absurd rfl hn
    | obj fs => simpa [fixProjectTechStack] using h.symm
    | str s => simpa [fixProjectTechStack] using h.symm
    | int n => simpa [fixProjectTechStack] using h.symm
    | bool b => simpa [fixProjectTechStack] using h.symm
    | arr xs => simpa [fixProjectTechStack] using h.symm
  rw [hq]
  exact projShapeOK_fixTechStackVal v hn

theorem fixProjectTechStack_fixed (v : JVal) (h : projShapeOK v = true) :
    fixProjectTechStack v = some v := by
  cases v with
  | null => simp [projShapeOK] at h
  | obj fs =>
      have harr : isArrOpt ((JVal.obj fs).getField ("tech_stack")) = true := by
        simpa [projShapeOK, JVal.isObj] using h
      obtain ⟨xs, hx⟩ := (isArrOpt_iff _).mp harr
      simp [fixProjectTechStack, fixTechStackVal, hx]
  | str s => simp [fixProjectTechStack, fixTechStackVal, JVal.getField,
      JVal.setField]
  | int n => simp [fixProjectTechStack, fixTechStackVal, JVal.getField,
      JVal.setField]
  | bool b => simp [fixProjectTechStack, fixTechStackVal, JVal.getField,
      JVal.setField]
  | arr xs => simp [fixProjectTechStack, fixTechStackVal, JVal.getField,
      JVal.setField]

theorem sanitizeProjectsList_fixed (ps : List JVal)
    (h : ps.all projShapeOK = true) : sanitizeProjectsList ps = some ps := by
  induction ps with
  | nil => rfl
  | cons x xs ih =>
      simp only [List.all_cons, Bool.and_eq_true] at h
      simp [sanitizeProjectsList, fixProjectTechStack_fixed x h.1, ih h.2]

theorem sanitizeProjectsList_shape (ps qs : List JVal)
    (h : sanitizeProjectsList ps = some qs) : qs.all projShapeOK = true := by
  induction ps generalizing qs with
  | nil =>
      simp only [sanitizeProjectsList, Option.some.injEq] at h
      rw [← h]
      rfl
  | cons x xs ih =>
      simp only [sanitizeProjectsList] at h
      cases hq : fixProjectTechStack x with
      | none => rw [hq] at h; simp at h
      | some q =>
          rw [hq] at h
          cases hrest : sanitizeProjectsList xs with
          | none => rw [hrest] at h; simp at h
          | some rs =>
              rw [hrest] at h
              simp only [Option.some.injEq] at h
              rw [← h]
              simp [List.all_cons, projShapeOK_fix x q hq, ih rs hrest]

theorem sanitizeProjectsState_of_some (ps qs : List JVal)
    (h : sanitizeProjectsList ps = some qs) : sanitizeProjectsState ps = qs := by
  induction ps generalizing qs with
  | nil =>
      simp only [sanitizeProjectsList, Option.some.injEq] at h
      rw [← h]
      rfl
  | cons x xs ih =>
      simp only [sanitizeProjectsList] at h
      cases hq : fixProjectTechStack x with
      | none => rw [hq] at h; simp at h
      | some q =>
          rw [hq] at h
          cases hrest : sanitizeProjectsList xs with
          | none => rw [hrest] at h; simp at h
          | some rs =>
              rw [hrest] at h
              simp only [Option.some.injEq] at h
              rw [← h]
              simp [sanitizeProjectsState, hq, ih rs hrest]

theorem sanitizeProjectsList_none_iff (ps : List JVal) :
    sanitizeProjectsList ps = none ↔ JVal.null ∈ ps := by
  induction ps with
  | nil => simp [sanitizeProjectsList]
  | cons x xs ih =>
      simp only [sanitizeProjectsList]
      cases hq : fixProjectTechStack x with
      | none =>
          have hx := (fixProjectTechStack_none_iff x).mp hq
          rw [hx]
          simp
      | some q =>
          have hn : x ≠ JVal.null := by
            intro he
            rw [he] at hq
            simp [fixProjectTechStack] at hq
          cases hrest : sanitizeProjectsList xs with
          | none =>
              rw [hrest] at ih
              simp only [List.mem_cons]
              simp [ih.mp rfl]
          | some rs =>
              rw [hrest] at ih
              simp only [List.mem_cons]
              simp at ih
              simp [ih, Ne.symm hn]

theorem sanitizeProjectsRun_ensure_none_iff (v : JVal) :
    sanitizeProjectsRun (ensureArray v) = none
      ↔ ∃ ps, v = JVal.arr ps ∧ JVal.null ∈ ps := by
  cases v with
  | arr ps =>
      rw [ensureArray_of_isArray (JVal.arr ps) rfl]
      simp only [sanitizeProjectsRun]
      cases hl : sanitizeProjectsList ps with
      | none =>
          exact iff_of_true rfl
            ⟨ps, rfl, (sanitizeProjectsList_none_iff ps).mp hl⟩
      | some qs =>
          apply iff_of_false
          · simp
          · rintro ⟨ps', hps', hmem⟩
            injection hps' with he
            subst he
            have hnone := (sanitizeProjectsList_none_iff ps).mpr hmem
            rw [hl] at hnone
            exact Option.noConfusion hnone
  | null => simp [ensureArray, JVal.isArray, sanitizeProjectsRun,
      sanitizeProjectsList]
  | str s => simp [ensureArray, JVal.isArray, sanitizeProjectsRun,
      sanitizeProjectsList]
  | int n => simp [ensureArray, JVal.isArray, sanitizeProjectsRun,
      sanitizeProjectsList]
  | bool b => simp [ensureArray, JVal.isArray, sanitizeProjectsRun,
      sanitizeProjectsList]
  | obj fs => simp [ensureArray, JVal.isArray, sanitizeProjectsRun,
      sanitizeProjectsList]

theorem projectsShapeOK_run (v w : JVal)
    (h : sanitizeProjectsRun (ensureArray v) = some w) :
    projectsShapeOK w = true := by
  cases hv : ensureArray v with
  | arr ps =>
      rw [hv] at h
      simp only [sanitizeProjectsRun] at h
      cases hl : sanitizeProjectsList ps with
      | none => rw [hl] at h; simp at h
      | some qs =>
          rw [hl] at h
          simp only [Option.some.injEq] at h
          rw [← h]
          exact sanitizeProjectsList_shape ps qs hl
  | null =>
      have := ensureArray_isArray v
      rw [hv] at this
      simp [JVal.isArray] at this
  | str s =>
      have := ensureArray_isArray v
      rw [hv] at this
      simp [JVal.isArray] at this
  | int n =>
      have := ensureArray_isArray v
      rw [hv] at this
      simp [JVal.isArray] at this
  | bool b =>
      have := ensureArray_isArray v
      rw [hv] at this
      simp [JVal.isArray] at this
  | obj fs =>
      have := ensureArray_isArray v
      rw [hv] at this
      simp [JVal.isArray] at this

theorem sanitizeProjects_agrees (v w : JVal)
    (h : sanitizeProjectsRun v = some w) : sanitizeProjects v = w := by
  cases v with
  | arr ps =>
      simp only [sanitizeProjectsRun] at h
      cases hl : sanitizeProjectsList ps with
      | none => rw [hl] at h; simp at h
      | some qs =>
          rw [hl] at h
          simp only [Option.some.injEq] at h
          rw [← h]
          show JVal.arr (sanitizeProjectsState ps) = JVal.arr qs
          rw [sanitizeProjectsState_of_some ps qs hl]
  | null =>
      simp only [sanitizeProjectsRun, Option.some.injEq] at h
      rw [← h]
      rfl
  | str s =>
      simp only [sanitizeProjectsRun, Option.some.injEq] at h
      rw [← h]
      rfl
  | int n =>
      simp only [sanitizeProjectsRun, Option.some.injEq] at h
      rw [← h]
      rfl
  | bool b =>
      simp only [sanitizeProjectsRun, Option.some.injEq] at h
      rw [← h]
      rfl
  | obj fs =>
      simp only [sanitizeProjectsRun, Option.some.injEq] at h
      rw [← h]
      rfl

theorem profileShapeOK_sanitizeRun (p q : Profile)
    (h : sanitizeProfileDataRun p = some q) : profileShapeOK q = true := by
  unfold sanitizeProfileDataRun at h
  cases hr : sanitizeProjectsRun (ensureArray p.projects) with
  | none => rw [hr] at h; simp at h
  | some projs =>
      rw [hr] at h
      simp only [Option.some.injEq] at h
      rw [← h]
      unfold profileShapeOK
      simp [ensureArray_isArray, prefsShapeOK_sanitizePreferences,
        sanitizeLinks_objectLike, projectsShapeOK_run _ _ hr]

theorem sanitizeProfileDataRun_fixed (p : Profile)
    (h : profileShapeOK p = true) : sanitizeProfileDataRun p = some p := by
  obtain ⟨ed, sk, ex, pr, ce, pf, lk, sc⟩ := p
  unfold profileShapeOK at h
  simp only [Bool.and_eq_true] at h
  obtain ⟨⟨⟨⟨⟨⟨hed, hsk⟩, hex⟩, hpr⟩, hce⟩, hpf⟩, hlk⟩ := h
  cases pr with
  | arr ps =>
      unfold sanitizeProfileDataRun
      have hrun : sanitizeProjectsRun (ensureArray (JVal.arr ps))
          = some (JVal.arr ps) := by
        rw [ensureArray_of_isArray (JVal.arr ps) rfl]
        simp [sanitizeProjectsRun, sanitizeProjectsList_fixed ps hpr]
      rw [hrun]
      simp only [Option.some.injEq, Profile.mk.injEq]
      exact ⟨ensureArray_of_isArray _ hed, ensureArray_of_isArray _ hsk,
        ensureArray_of_isArray _ hex, trivial,
        ensureArray_of_isArray _ hce, sanitizePreferences_fixed _ hpf,
        sanitizeLinks_of_objectLike _ hlk, trivial⟩
  | null => simp [projectsShapeOK] at hpr
  | str s => simp [projectsShapeOK] at hpr
  | int n => simp [projectsShapeOK] at hpr
  | bool b => simp [projectsShapeOK] at hpr
  | obj fs => simp [projectsShapeOK] at hpr

theorem sanitizeProfileData_agrees (p q : Profile)
    (h : sanitizeProfileDataRun p = some q) : sanitizeProfileData p = q := by
  unfold sanitizeProfileDataRun at h
  cases hr : sanitizeProjectsRun (ensureArray p.projects) with
  | none => rw [hr] at h; simp at h
  | some projs =>
      rw [hr] at h
      simp only [Option.some.injEq] at h
      rw [← h]
      unfold sanitizeProfileData
      simp only [Profile.mk.injEq]
      refine ⟨trivial, trivial, trivial, sanitizeProjects_agrees _ _ hr,
        trivial, trivial, trivial, trivial⟩

theorem sanitizeProfileDataRun_none_iff (p : Profile) :
    sanitizeProfileDataRun p = none
      ↔ ∃ ps, p.projects = JVal.arr ps ∧ JVal.null ∈ ps := by
  unfold sanitizeProfileDataRun
  cases hr : sanitizeProjectsRun (ensureArray p.projects) with
  | none =>
      exact iff_of_true rfl
        ((sanitizeProjectsRun_ensure_none_iff p.projects).mp hr)
  | some projs =>
      apply iff_of_false
      · simp
      · intro hex
        have hnone := (sanitizeProjectsRun_ensure_none_iff p.projects).mpr hex
        rw [hr] at hnone
        exact Option.noConfusion hnone

/-- Claim C2, counterexample.  The claim states that after
`sanitizeProfileData` the preferences and links sub-records always carry
their full sets of known keys.  On the draft whose preferences and links
are objects with no keys at all, sanitization adds only employment_type
and work_mode to preferences (leaving the other seven known keys absent)
and leaves links without any of its six known keys. -/
theorem sanitize_full_keys_counterexample :
    hasKeys (sanitizeProfileData emptySubrecordsProfile).preferences
        knownPreferenceKeys = false
    ∧ hasKeys (sanitizeProfileData emptySubrecordsProfile).links
        knownLinkKeys = false
    ∧ (sanitizeProfileData emptySubrecordsProfile).preferences.getField
        ("preferred_roles") = none
    ∧ (sanitizeProfileData emptySubrecordsProfile).links.getField
        ("linkedin") = none
    ∧ (sanitizeProfileData emptySubrecordsProfile).preferences
        = .obj [(("employment_type"), .arr []), (("work_mode"), .arr [])] := by
  exact ⟨rfl, rfl, rfl, rfl, rfl⟩

/-- Claim C2, amended.  Only when a sub-record is absent or not
object-typed does `sanitizeProfileData` install the full-key default
(all nine preference keys, all six link keys, absent ones null or an
empty list).  A preferences value that is already a plain object merely
has employment_type and work_mode forced to arrays, every other key
keeping its previous (possibly absent) binding; an array-valued
preferences and an object-typed links value are left unchanged. -/
theorem sanitize_subrecord_key_policy (p : Profile) :
    (p.preferences.objectLike = false →
        (sanitizeProfileData p).preferences = defaultPreferences)
    ∧ (p.preferences.isObj = true →
        isArrOpt ((sanitizeProfileData p).preferences.getField
          ("employment_type")) = true
        ∧ isArrOpt ((sanitizeProfileData p).preferences.getField
          ("work_mode")) = true
        ∧ ∀ k, k ≠ ("employment_type") → k ≠ ("work_mode") →
            (sanitizeProfileData p).preferences.getField k
              = p.preferences.getField k)
    ∧ (p.preferences.isArray = true →
        (sanitizeProfileData p).preferences = p.preferences)
    ∧ (p.links.objectLike = false →
        (sanitizeProfileData p).links = defaultLinks)
    ∧ (p.links.objectLike = true → (sanitizeProfileData p).links = p.links)
    ∧ hasKeys defaultPreferences knownPreferenceKeys = true
    ∧ hasKeys defaultLinks knownLinkKeys = true := by
  refine ⟨fun h => sanitizePreferences_not_objectLike _ h,
    fun h => ⟨sanitizePreferences_emp _ h, sanitizePreferences_work _ h,
      fun k h₁ h₂ => sanitizePreferences_other_key _
        (objectLike_of_isObj _ h) k h₁ h₂⟩,
    fun h => sanitizePreferences_arr _ h,
    fun h => sanitizeLinks_not_objectLike _ h,
    fun h => sanitizeLinks_of_objectLike _ h, rfl, rfl⟩

/-- Witness for the amended claim C2 at concrete drafts: null
sub-records are replaced by the full-key defaults, and object-typed
sub-records keep their keys while employment_type is forced to an
array. -/
theorem sanitize_subrecord_key_policy_witness :
    (sanitizeProfileData nullSubrecordsProfile).preferences = defaultPreferences
    ∧ (sanitizeProfileData nullSubrecordsProfile).links = defaultLinks
    ∧ isArrOpt ((sanitizeProfileData emptySubrecordsProfile).preferences.getField
        ("employment_type")) = true
    ∧ (sanitizeProfileData emptySubrecordsProfile).links
        = emptySubrecordsProfile.links
    ∧ (sanitizeProfileData normalizedProfile).preferences.getField
        ("expected_salary")
        = normalizedProfile.preferences.getField ("expected_salary") :=
  ⟨(sanitize_subrecord_key_policy nullSubrecordsProfile).1 rfl,
   (sanitize_subrecord_key_policy nullSubrecordsProfile).2.2.2.1 rfl,
   ((sanitize_subrecord_key_policy emptySubrecordsProfile).2.1 rfl).1,
   (sanitize_subrecord_key_policy emptySubrecordsProfile).2.2.2.2.1 rfl,
   ((sanitize_subrecord_key_policy normalizedProfile).2.1 rfl).2.2
     ("expected_salary") (by decide) (by decide)⟩

/-- Claim C3, counterexample.  The claim asserts idempotence for every
draft profile value and no effect beyond normalizing the in-memory
draft.  On a draft whose projects array contains a null element the
call does not return a once-sanitized draft at all: the map callback
evaluates `proj.tech_stack` on null at profile_new.js line 201 and the
TypeError escapes to the caller, aborting its flow. -/
theorem sanitize_throws_counterexample :
    sanitizeProfileDataRun nullElementProjectsProfile = none
    ∧ fixProjectTechStack JVal.null = none :=
  ⟨rfl, rfl⟩

/-- Claim C3, amended.  On every draft on which the call completes —
exactly those whose projects field is not an array containing a null
element — `sanitizeProfileData` is idempotent: a draft it returns is
returned unchanged by a second run; any draft already satisfying the
shape invariants is returned exactly unchanged; the scalar fields of
the draft are never touched; and the in-memory draft a call leaves
behind agrees with the returned one whenever it returns.  On a draft
whose projects array contains a null element the call throws a
TypeError instead of returning. -/
theorem sanitizeProfileData_idempotent :
    (∀ p q, sanitizeProfileDataRun p = some q →
        sanitizeProfileDataRun q = some q)
    ∧ (∀ p q, sanitizeProfileDataRun p = some q → sanitizeProfileData p = q)
    ∧ (∀ p, profileShapeOK p = true → sanitizeProfileDataRun p = some p)
    ∧ (∀ p, (sanitizeProfileData p).scalars = p.scalars)
    ∧ (∀ p, sanitizeProfileDataRun p = none
        ↔ ∃ ps, p.projects = JVal.arr ps ∧ JVal.null ∈ ps) :=
  ⟨fun p q h => sanitizeProfileDataRun_fixed q (profileShapeOK_sanitizeRun p q h),
   fun p q h => sanitizeProfileData_agrees p q h,
   fun p h => sanitizeProfileDataRun_fixed p h,
   fun _ => rfl,
   fun p => sanitizeProfileDataRun_none_iff p⟩

/-- Witness for the amended claim C3 at concrete drafts: the normalized
draft is returned unchanged and re-running returns it again, while the
null-element draft makes the call throw. -/
theorem sanitizeProfileData_idempotent_witness :
    sanitizeProfileDataRun normalizedProfile = some normalizedProfile
    ∧ sanitizeProfileData normalizedProfile = normalizedProfile
    ∧ sanitizeProfileDataRun nullElementProjectsProfile = none :=
  ⟨sanitizeProfileData_idempotent.1 normalizedProfile normalizedProfile
     (sanitizeProfileData_idempotent.2.2.1 normalizedProfile rfl),
   sanitizeProfileData_idempotent.2.1 normalizedProfile normalizedProfile
     (sanitizeProfileData_idempotent.2.2.1 normalizedProfile rfl),
   (sanitizeProfileData_idempotent.2.2.2.2 nullElementProjectsProfile).mpr
     ⟨[JVal.obj [(("title"), JVal.str ("P")),
        (("tech_stack"), JVal.str ("a,b"))], JVal.null], rfl,
      List.mem_cons_of_mem _ (List.mem_cons_self _ _)⟩⟩

/-!
Lemmas about the sub-collection editors.
-/

theorem set_entries_spec {α : Type} (l : List α) (x : α) (i : Nat)
    (hi : i < l.length) :
    (l.set i x).length = l.length ∧ (l.set i x)[i]? = some x
    ∧ ∀ j : Nat, j ≠ i → (l.set i x)[j]? = l[j]? :=
  ⟨List.length_set l i x, List.getElem?_set_self hi,
   fun _ hj => List.getElem?_set_ne (Ne.symm hj)⟩

theorem eraseIdx_spec {α : Type} (l : List α) (i : Nat) (hi : i < l.length) :
    (l.eraseIdx i).length = l.length - 1
    ∧ (∀ j : Nat, j < i → (l.eraseIdx i)[j]? = l[j]?)
    ∧ (∀ j : Nat, i < j → j < l.length → (l.eraseIdx i)[j - 1]? = l[j]?) := by
  refine ⟨?_, ?_, ?_⟩
  · rw [List.length_eraseIdx]
    simp [hi]
  · intro j hj
    rw [List.getElem?_eraseIdx]
    simp [hj]
  · intro j hij _
    rw [List.getElem?_eraseIdx]
    have h₁ : ¬ (j - 1 < i) := by omega
    rw [if_neg h₁]
    congr 1
    omega

theorem saveEducationEntry_create (f : EducationForm)
    (st : EditorState EducationEntry) (h : st.editing = -1) :
    (saveEducationEntry f st).1.entries = st.entries ++ [mkEducation f] := by
  simp [saveEducationEntry, h]

theorem saveEducationEntry_edit (f : EducationForm)
    (st : EditorState EducationEntry) (i : Nat) (h : st.editing = (i : Int)) :
    (saveEducationEntry f st).1.entries = st.entries.set i (mkEducation f) := by
  simp [saveEducationEntry, h, Int.natCast_nonneg]

theorem saveSkillEntry_create (f : SkillForm) (st : EditorState SkillEntry)
    (h : st.editing = -1) :
    (saveSkillEntry f st).1.entries = st.entries ++ [mkSkill f] := by
  simp [saveSkillEntry, h]

theorem saveSkillEntry_edit (f : SkillForm) (st : EditorState SkillEntry)
    (i : Nat) (h : st.editing = (i : Int)) :
    (saveSkillEntry f st).1.entries = st.entries.set i (mkSkill f) := by
  simp [saveSkillEntry, h, Int.natCast_nonneg]

theorem saveExperienceEntry_create (f : ExperienceForm)
    (st : EditorState ExperienceEntry) (h : st.editing = -1) :
    (saveExperienceEntry f st).1.entries = st.entries ++ [mkExperience f] := by
  simp [saveExperienceEntry, h]

theorem saveExperienceEntry_edit (f : ExperienceForm)
    (st : EditorState ExperienceEntry) (i : Nat) (h : st.editing = (i : Int)) :
    (saveExperienceEntry f st).1.entries
      = st.entries.set i (mkExperience f) := by
  simp [saveExperienceEntry, h, Int.natCast_nonneg]

theorem saveCertificationEntry_create (f : CertificationForm)
    (st : EditorState CertificationEntry) (h : st.editing = -1) :
    (saveCertificationEntry f st).1.entries
      = st.entries ++ [mkCertification f] := by
  simp [saveCertificationEntry, h]

theorem saveCertificationEntry_edit (f : CertificationForm)
    (st : EditorState CertificationEntry) (i : Nat)
    (h : st.editing = (i : Int)) :
    (saveCertificationEntry f st).1.entries
      = st.entries.set i (mkCertification f) := by
  simp [saveCertificationEntry, h, Int.natCast_nonneg]

theorem saveProjectEntry_create (f : ProjectForm)
    (st : EditorState ProjectEntry) (hts : splitTags f.proj_tech_stack ≠ [])
    (h : st.editing = -1) :
    (saveProjectEntry f st).1.entries = st.entries ++ [mkProject f] := by
  simp [saveProjectEntry, List.isEmpty_iff, hts, h, mkProject]

theorem saveProjectEntry_edit (f : ProjectForm)
    (st : EditorState ProjectEntry) (hts : splitTags f.proj_tech_stack ≠ [])
    (i : Nat) (h : st.editing = (i : Int)) :
    (saveProjectEntry f st).1.entries = st.entries.set i (mkProject f) := by
  simp [saveProjectEntry, List.isEmpty_iff, hts, h, Int.natCast_nonneg, mkProject]

/-- Claim C4.  In each of the five sub-collection editors, saving with
the sentinel at -1 appends exactly the normalized submitted record,
leaving every prior element unchanged; saving with the sentinel at a
valid index i replaces index i with that record and preserves the
length and every other index.  For the project editor this holds
whenever the submitted tag input yields at least one tag (the rejection
branch is claim C6). -/
theorem save_entry_append_or_replace (f : EducationForm) (g : SkillForm)
    (e : ExperienceForm) (c : CertificationForm) (h : ProjectForm)
    (stE : EditorState EducationEntry) (stS : EditorState SkillEntry)
    (stX : EditorState ExperienceEntry) (stC : EditorState CertificationEntry)
    (stP : EditorState ProjectEntry) :
    (stE.editing = -1 →
        (saveEducationEntry f stE).1.entries = stE.entries ++ [mkEducation f])
    ∧ (∀ i : Nat, stE.editing = (i : Int) → i < stE.entries.length →
        (saveEducationEntry f stE).1.entries.length = stE.entries.length
        ∧ (saveEducationEntry f stE).1.entries[i]? = some (mkEducation f)
        ∧ ∀ j : Nat, j ≠ i →
            (saveEducationEntry f stE).1.entries[j]? = stE.entries[j]?)
    ∧ (stS.editing = -1 →
        (saveSkillEntry g stS).1.entries = stS.entries ++ [mkSkill g])
    ∧ (∀ i : Nat, stS.editing = (i : Int) → i < stS.entries.length →
        (saveSkillEntry g stS).1.entries.length = stS.entries.length
        ∧ (saveSkillEntry g stS).1.entries[i]? = some (mkSkill g)
        ∧ ∀ j : Nat, j ≠ i →
            (saveSkillEntry g stS).1.entries[j]? = stS.entries[j]?)
    ∧ (stX.editing = -1 →
        (saveExperienceEntry e stX).1.entries
          = stX.entries ++ [mkExperience e])
    ∧ (∀ i : Nat, stX.editing = (i : Int) → i < stX.entries.length →
        (saveExperienceEntry e stX).1.entries.length = stX.entries.length
        ∧ (saveExperienceEntry e stX).1.entries[i]? = some (mkExperience e)
        ∧ ∀ j : Nat, j ≠ i →
            (saveExperienceEntry e stX).1.entries[j]? = stX.entries[j]?)
    ∧ (stC.editing = -1 →
        (saveCertificationEntry c stC).1.entries
          = stC.entries ++ [mkCertification c])
    ∧ (∀ i : Nat, stC.editing = (i : Int) → i < stC.entries.length →
        (saveCertificationEntry c stC).1.entries.length = stC.entries.length
        ∧ (saveCertificationEntry c stC).1.entries[i]?
            = some (mkCertification c)
        ∧ ∀ j : Nat, j ≠ i →
            (saveCertificationEntry c stC).1.entries[j]? = stC.entries[j]?)
    ∧ (splitTags h.proj_tech_stack ≠ [] →
        (stP.editing = -1 →
            (saveProjectEntry h stP).1.entries = stP.entries ++ [mkProject h])
        ∧ (∀ i : Nat, stP.editing = (i : Int) → i < stP.entries.length →
            (saveProjectEntry h stP).1.entries.length = stP.entries.length
            ∧ (saveProjectEntry h stP).1.entries[i]? = some (mkProject h)
            ∧ ∀ j : Nat, j ≠ i →
                (saveProjectEntry h stP).1.entries[j]? = stP.entries[j]?)) := by
  refine ⟨fun hc => saveEducationEntry_create f stE hc,
    fun i hi hlen => ?_,
    fun hc => saveSkillEntry_create g stS hc,
    fun i hi hlen => ?_,
    fun hc => saveExperienceEntry_create e stX hc,
    fun i hi hlen => ?_,
    fun hc => saveCertificationEntry_create c stC hc,
    fun i hi hlen => ?_,
    fun hts => ⟨fun hc => saveProjectEntry_create h stP hts hc,
      fun i hi hlen => ?_⟩⟩
  · rw [saveEducationEntry_edit f stE i hi]
    exact set_entries_spec stE.entries (mkEducation f) i hlen
  · rw [saveSkillEntry_edit g stS i hi]
    exact set_entries_spec stS.entries (mkSkill g) i hlen
  · rw [saveExperienceEntry_edit e stX i hi]
    exact set_entries_spec stX.entries (mkExperience e) i hlen
  · rw [saveCertificationEntry_edit c stC i hi]
    exact set_entries_spec stC.entries (mkCertification c) i hlen
  · rw [saveProjectEntry_edit h stP hts i hi]
    exact set_entries_spec stP.entries (mkProject h) i hlen

/-- Witness for claim C4: concrete create and edit saves in the five
editors. -/
theorem save_entry_append_or_replace_witness :
    (saveEducationEntry eduForm₀ eduState₀).1.entries
      = eduState₀.entries ++ [mkEducation eduForm₀]
    ∧ (saveEducationEntry eduForm₀ eduState₁).1.entries[1]?
      = some (mkEducation eduForm₀)
    ∧ (saveEducationEntry eduForm₀ eduState₁).1.entries[0]?
      = eduState₁.entries[0]?
    ∧ (saveSkillEntry skillForm₀ skillState₀).1.entries
      = skillState₀.entries ++ [mkSkill skillForm₀]
    ∧ (saveExperienceEntry expForm₀ expState₀).1.entries
      = expState₀.entries ++ [mkExperience expForm₀]
    ∧ (saveCertificationEntry certForm₀ certState₀).1.entries[0]?
      = some (mkCertification certForm₀)
    ∧ (saveProjectEntry projForm₀ projState₀).1.entries[0]?
      = some (mkProject projForm₀)
    ∧ (saveProjectEntry projForm₀ projState₁).1.entries
      = projState₁.entries ++ [mkProject projForm₀] := by
  have h₀ := save_entry_append_or_replace eduForm₀ skillForm₀ expForm₀
    certForm₀ projForm₀ eduState₀ skillState₀ expState₀ certState₀ projState₀
  have h₁ := save_entry_append_or_replace eduForm₀ skillForm₀ expForm₀
    certForm₀ projForm₀ eduState₁ skillState₀ expState₀ certState₀ projState₁
  exact ⟨h₀.1 rfl,
    (h₁.2.1 1 rfl (by decide)).2.1,
    (h₁.2.1 1 rfl (by decide)).2.2 0 (by decide),
    h₀.2.2.1 rfl,
    h₀.2.2.2.2.1 rfl,
    (h₀.2.2.2.2.2.2.2.1 0 rfl (by decide)).2.1,
    ((h₀.2.2.2.2.2.2.2.2 (by decide)).2 0 rfl (by decide)).2.1,
    ((h₁.2.2.2.2.2.2.2.2 (by decide)).1 rfl)⟩

/-- Claim C6.  A submitted project whose technology-tag input dissolves
into zero tags is rejected: the handler emits the warning and returns
the editor state (entries, sentinel, and modal) entirely unchanged. -/
theorem saveProjectEntry_no_tags (f : ProjectForm)
    (st : EditorState ProjectEntry) (h : splitTags f.proj_tech_stack = []) :
    saveProjectEntry f st
      = (st, [("Please add at least one technology in Tech Stack")]) := by
  simp [saveProjectEntry, h]

/-- Witness for claim C6 at a concrete all-whitespace tag input. -/
theorem saveProjectEntry_no_tags_witness :
    splitTags projFormNoTags.proj_tech_stack = []
    ∧ saveProjectEntry projFormNoTags projState₀
      = (projState₀, [("Please add at least one technology in Tech Stack")]) :=
  ⟨rfl, saveProjectEntry_no_tags projFormNoTags projState₀ rfl⟩

/-- Claim C9.  Confirmed deletion at a valid index removes exactly that
element in each of the five editors: the length drops by one, indices
below are untouched, and every element previously at a higher position
slides down by one. -/
theorem delete_entry_removes_exactly_one (i : Nat)
    (stE : EditorState EducationEntry) (stS : EditorState SkillEntry)
    (stX : EditorState ExperienceEntry) (stC : EditorState CertificationEntry)
    (stP : EditorState ProjectEntry) :
    (i < stE.entries.length →
        (deleteEducation true i stE).entries.length = stE.entries.length - 1
        ∧ (∀ j : Nat, j < i →
            (deleteEducation true i stE).entries[j]? = stE.entries[j]?)
        ∧ (∀ j : Nat, i < j → j < stE.entries.length →
            (deleteEducation true i stE).entries[j - 1]? = stE.entries[j]?))
    ∧ (i < stS.entries.length →
        (deleteSkill true i stS).entries.length = stS.entries.length - 1
        ∧ (∀ j : Nat, j < i →
            (deleteSkill true i stS).entries[j]? = stS.entries[j]?)
        ∧ (∀ j : Nat, i < j → j < stS.entries.length →
            (deleteSkill true i stS).entries[j - 1]? = stS.entries[j]?))
    ∧ (i < stX.entries.length →
        (deleteExperience true i stX).entries.length = stX.entries.length - 1
        ∧ (∀ j : Nat, j < i →
            (deleteExperience true i stX).entries[j]? = stX.entries[j]?)
        ∧ (∀ j : Nat, i < j → j < stX.entries.length →
            (deleteExperience true i stX).entries[j - 1]? = stX.entries[j]?))
    ∧ (i < stC.entries.length →
        (deleteCertification true i stC).entries.length
          = stC.entries.length - 1
        ∧ (∀ j : Nat, j < i →
            (deleteCertification true i stC).entries[j]? = stC.entries[j]?)
        ∧ (∀ j : Nat, i < j → j < stC.entries.length →
            (deleteCertification true i stC).entries[j - 1]?
              = stC.entries[j]?))
    ∧ (i < stP.entries.length →
        (deleteProject true i stP).entries.length = stP.entries.length - 1
        ∧ (∀ j : Nat, j < i →
            (deleteProject true i stP).entries[j]? = stP.entries[j]?)
        ∧ (∀ j : Nat, i < j → j < stP.entries.length →
            (deleteProject true i stP).entries[j - 1]? = stP.entries[j]?)) := by
  refine ⟨fun hi => ?_, fun hi => ?_, fun hi => ?_, fun hi => ?_, fun hi => ?_⟩
  · simpa [deleteEducation] using eraseIdx_spec stE.entries i hi
  · simpa [deleteSkill] using eraseIdx_spec stS.entries i hi
  · simpa [deleteExperience] using eraseIdx_spec stX.entries i hi
  · simpa [deleteCertification] using eraseIdx_spec stC.entries i hi
  · simpa [deleteProject] using eraseIdx_spec stP.entries i hi

/-- Witness for claim C9 at concrete editors. -/
theorem delete_entry_removes_exactly_one_witness :
    (deleteEducation true 0 eduState₀).entries.length
      = eduState₀.entries.length - 1
    ∧ (deleteEducation true 0 eduState₀).entries[1 - 1]?
      = eduState₀.entries[1]?
    ∧ (deleteSkill true 0 skillState₀).entries.length
      = skillState₀.entries.length - 1
    ∧ (deleteExperience true 0 expState₀).entries.length
      = expState₀.entries.length - 1
    ∧ (deleteCertification true 0 certState₀).entries.length
      = certState₀.entries.length - 1
    ∧ (deleteProject true 0 projState₀).entries.length
      = projState₀.entries.length - 1 := by
  have h := delete_entry_removes_exactly_one 0 eduState₀ skillState₀ expState₀
    certState₀ projState₀
  exact ⟨(h.1 (by decide)).1,
    (h.1 (by decide)).2.2 1 (by decide) (by decide),
    (h.2.1 (by decide)).1,
    (h.2.2.1 (by decide)).1,
    (h.2.2.2.1 (by decide)).1,
    (h.2.2.2.2 (by decide)).1⟩

/-- Claim C10.  In every sub-collection editor, opening the form for
creation and closing the modal both reset the editing sentinel to -1,
so a save issued after either operation appends a fresh record instead
of overwriting one through a stale sentinel (the project save again
assuming a non-empty tag list). -/
theorem open_close_reset_sentinel (stE : EditorState EducationEntry)
    (stS : EditorState SkillEntry) (stX : EditorState ExperienceEntry)
    (stC : EditorState CertificationEntry) (stP : EditorState ProjectEntry)
    (f : EducationForm) (g : SkillForm) (e : ExperienceForm)
    (c : CertificationForm) (h : ProjectForm) :
    (openEducationForm stE).editing = -1
    ∧ (closeEducationModal stE).editing = -1
    ∧ (saveEducationEntry f (openEducationForm stE)).1.entries
        = stE.entries ++ [mkEducation f]
    ∧ (saveEducationEntry f (closeEducationModal stE)).1.entries
        = stE.entries ++ [mkEducation f]
    ∧ (openSkillForm stS).editing = -1
    ∧ (closeSkillModal stS).editing = -1
    ∧ (saveSkillEntry g (openSkillForm stS)).1.entries
        = stS.entries ++ [mkSkill g]
    ∧ (saveSkillEntry g (closeSkillModal stS)).1.entries
        = stS.entries ++ [mkSkill g]
    ∧ (openExperienceForm stX).editing = -1
    ∧ (closeExperienceModal stX).editing = -1
    ∧ (saveExperienceEntry e (openExperienceForm stX)).1.entries
        = stX.entries ++ [mkExperience e]
    ∧ (saveExperienceEntry e (closeExperienceModal stX)).1.entries
        = stX.entries ++ [mkExperience e]
    ∧ (openCertificationForm stC).editing = -1
    ∧ (closeCertificationModal stC).editing = -1
    ∧ (saveCertificationEntry c (openCertificationForm stC)).1.entries
        = stC.entries ++ [mkCertification c]
    ∧ (saveCertificationEntry c (closeCertificationModal stC)).1.entries
        = stC.entries ++ [mkCertification c]
    ∧ (openProjectForm stP).editing = -1
    ∧ (closeProjectModal stP).editing = -1
    ∧ (splitTags h.proj_tech_stack ≠ [] →
        (saveProjectEntry h (openProjectForm stP)).1.entries
          = stP.entries ++ [mkProject h]
        ∧ (saveProjectEntry h (closeProjectModal stP)).1.entries
          = stP.entries ++ [mkProject h]) :=
  ⟨rfl, rfl,
   saveEducationEntry_create f _ rfl,
   saveEducationEntry_create f _ rfl,
   rfl, rfl,
   saveSkillEntry_create g _ rfl,
   saveSkillEntry_create g _ rfl,
   rfl, rfl,
   saveExperienceEntry_create e _ rfl,
   saveExperienceEntry_create e _ rfl,
   rfl, rfl,
   saveCertificationEntry_create c _ rfl,
   saveCertificationEntry_create c _ rfl,
   rfl, rfl,
   fun hts => ⟨saveProjectEntry_create h _ hts rfl,
     saveProjectEntry_create h _ hts rfl⟩⟩

/-- Witness for claim C10: a save issued right after opening the
project editor for creation on a state that was previously editing
index 0 appends rather than overwrites. -/
theorem open_close_reset_sentinel_witness :
    (saveProjectEntry projForm₀ (openProjectForm projState₀)).1.entries
      = projState₀.entries ++ [mkProject projForm₀]
    ∧ (saveEducationEntry eduForm₀ (closeEducationModal eduState₁)).1.entries
      = eduState₁.entries ++ [mkEducation eduForm₀]
    ∧ (saveCertificationEntry certForm₀
        (openCertificationForm certState₀)).1.entries
      = certState₀.entries ++ [mkCertification certForm₀] := by
  have h := open_close_reset_sentinel eduState₁ skillState₀ expState₀
    certState₀ projState₀ eduForm₀ skillForm₀ expForm₀ certForm₀ projForm₀
  exact ⟨(h.2.2.2.2.2.2.2.2.2.2.2.2.2.2.2.2.2.2 (by decide)).1,
    h.2.2.2.1,
    h.2.2.2.2.2.2.2.2.2.2.2.2.2.2.1⟩

/-!
Wizard navigation lemmas.
-/

theorem validateStep_false_warns (required : List RequiredInput) (p : Profile)
    (step : Nat) (h : (validateStep required p step).1 = false) :
    (validateStep required p step).2 ≠ [] := by
  unfold validateStep at h ⊢
  cases hf : required.find? (fun inp => jsTrim inp.value = "") with
  | some inp => simp [hf]
  | none =>
      by_cases h₂ : step = 2 ∧ jsLengthIsZero p.education = true
      · simp [h₂]
      · by_cases h₃ : step = 3 ∧ jsLengthIsZero p.skills = true
        · simp [h₂, h₃]
        · simp [hf, h₂, h₃] at h

theorem validateStep_true_iff (required : List RequiredInput) (p : Profile)
    (step : Nat) :
    (validateStep required p step).1 = true ↔
      (∀ inp ∈ required, jsTrim inp.value ≠ "")
      ∧ (step = 2 → jsLengthIsZero p.education = false)
      ∧ (step = 3 → jsLengthIsZero p.skills = false) := by
  unfold validateStep
  cases hf : required.find? (fun inp => jsTrim inp.value = "") with
  | some inp =>
      simp only [hf]
      constructor
      · intro h
        exact absurd h (by simp)
      · intro ⟨h₁, _, _⟩
        exact absurd (by simpa using List.find?_some hf)
          (h₁ inp (List.mem_of_find?_eq_some hf))
  | none =>
      have hall := List.find?_eq_none.mp hf
      by_cases h₂ : step = 2 ∧ jsLengthIsZero p.education = true
      · apply iff_of_false
        · simp [h₂]
        · intro ⟨_, hb, _⟩
          have hb' := hb h₂.1
          rw [hb'] at h₂
          exact absurd h₂.2 (by simp)
      · by_cases h₃ : step = 3 ∧ jsLengthIsZero p.skills = true
        · apply iff_of_false
          · simp [h₂, h₃]
          · intro ⟨_, _, hb⟩
            have hb' := hb h₃.1
            rw [hb'] at h₃
            exact absurd h₃.2 (by simp)
        · apply iff_of_true
          · simp [h₂, h₃]
          · refine ⟨fun inp hm => by simpa using hall inp hm,
              fun h2 => ?_, fun h3 => ?_⟩
            · rcases Bool.eq_false_or_eq_true (jsLengthIsZero p.education)
                with hb | hb
              · exact absurd ⟨h2, hb⟩ h₂
              · exact hb
            · rcases Bool.eq_false_or_eq_true (jsLengthIsZero p.skills)
                with hb | hb
              · exact absurd ⟨h3, hb⟩ h₃
              · exact hb

/-- Claim C5.  The wizard step counter stays within 1..5: `nextStep`
leaves the step unchanged with a warning whenever validation fails,
validation succeeds exactly when every required field of the step is
non-blank and (for steps 2 and 3) the education and skills arrays are
non-empty, a successful `nextStep` moves to min(step+1, 5), and
`prevStep` decrements above step 1 and stays at 1 otherwise. -/
theorem wizard_step_bounds (required : List RequiredInput) (p : Profile)
    (step : Nat) (h₁ : 1 ≤ step) (h₅ : step ≤ totalSteps) :
    ((validateStep required p step).1 = false →
        (nextStep required p step).1 = step
        ∧ (nextStep required p step).2 ≠ [])
    ∧ ((validateStep required p step).1 = true →
        (nextStep required p step).1 = min (step + 1) totalSteps)
    ∧ ((validateStep required p step).1 = true ↔
        (∀ inp ∈ required, jsTrim inp.value ≠ "")
        ∧ (step = 2 → jsLengthIsZero p.education = false)
        ∧ (step = 3 → jsLengthIsZero p.skills = false))
    ∧ 1 ≤ (nextStep required p step).1
    ∧ (nextStep required p step).1 ≤ totalSteps
    ∧ (1 < step → prevStep step = step - 1)
    ∧ (step = 1 → prevStep step = 1)
    ∧ 1 ≤ prevStep step ∧ prevStep step ≤ totalSteps := by
  have hsnd : (nextStep required p step).2 = (validateStep required p step).2 := by
    by_cases hv : (validateStep required p step).1 = true
    · simp [nextStep, hv, apply_ite Prod.snd]
    · simp [nextStep, hv]
  refine ⟨fun hv => ⟨?_, (by rw [hsnd]; exact validateStep_false_warns required p step hv)⟩,
    fun hv => ?_, validateStep_true_iff required p step, ?_, ?_,
    fun h => ?_, fun h => by subst h; rfl, ?_, ?_⟩
  · simp [nextStep, hv]
  · simp only [nextStep, hv, not_true_eq_false, if_false, apply_ite
      (Prod.fst (α := Nat) (β := List String))]
    split_ifs with hlt
    · exact (Nat.min_eq_left hlt).symm
    · have hs : step = totalSteps := le_antisymm h₅ (Nat.not_lt.mp hlt)
      subst hs
      exact (Nat.min_eq_right (Nat.le_succ _)).symm
  · by_cases hv : (validateStep required p step).1 = true
    · simp only [nextStep, hv, not_true_eq_false, if_false, apply_ite
        (Prod.fst (α := Nat) (β := List String))]
      split_ifs with hlt
      · exact Nat.le_succ_of_le h₁
      · exact h₁
    · simp only [nextStep, hv]
      simp
      exact h₁
  · by_cases hv : (validateStep required p step).1 = true
    · simp only [nextStep, hv, not_true_eq_false, if_false, apply_ite
        (Prod.fst (α := Nat) (β := List String))]
      split_ifs with hlt
      · exact hlt
      · exact h₅
    · simp only [nextStep, hv]
      simp
      exact h₅
  · unfold prevStep
    simp [h]
  · unfold prevStep
    split_ifs with h
    · omega
    · exact h₁
  · unfold prevStep
    split_ifs with h
    · omega
    · exact h₅

/-- Witness for claim C5: the end-to-end wizard example at concrete
inputs.  A blank required field blocks step 2 with a warning; with
every field filled and one education entry present, step 2 advances to
step 3; `prevStep` stays at 1 and goes from 3 to 2. -/
theorem wizard_step_bounds_witness :
    (validateStep blankInputs normalizedProfile 2).1 = false
    ∧ (nextStep blankInputs normalizedProfile 2).1 = 2
    ∧ (nextStep blankInputs normalizedProfile 2).2 ≠ []
    ∧ (validateStep filledInputs normalizedProfile 2).1 = true
    ∧ (nextStep filledInputs normalizedProfile 2).1 = 3
    ∧ prevStep 1 = 1
    ∧ prevStep 3 = 2 := by
  have hblock := (wizard_step_bounds blankInputs normalizedProfile 2
    (by decide) (by decide)).1 rfl
  have hadv := (wizard_step_bounds filledInputs normalizedProfile 2
    (by decide) (by decide)).2.1 rfl
  have hprev1 := (wizard_step_bounds filledInputs normalizedProfile 1
    (by decide) (by decide)).2.2.2.2.2.2.1 rfl
  have hprev3 := (wizard_step_bounds filledInputs normalizedProfile 3
    (by decide) (by decide)).2.2.2.2.2.1 (by decide)
  exact ⟨rfl, hblock.1, hblock.2, rfl, hadv.trans rfl, hprev1,
    hprev3.trans rfl⟩

/-- Claim C8, counterexample.  The claim states that every invocation
of previousPage triggers exactly one re-fetch; at page 1 the handler
issues no fetch at all (and leaves the state untouched). -/
theorem previousPage_page1_counterexample :
    (previousPage jobsPage1).2 = [] ∧ previousPage jobsPage1 = (jobsPage1, []) :=
  ⟨rfl, rfl⟩

/-- Claim C8, amended.  The page counter never drops below 1;
`nextPage` always increments the page and issues exactly one fetch with
the new page and the unchanged filters; `previousPage` does the same
with the decremented page when the page is above 1, and otherwise
changes nothing and issues no fetch. -/
theorem page_navigation_spec (st : JobsState) :
    (1 ≤ st.currentPage →
        1 ≤ (nextPage st).1.currentPage ∧ 1 ≤ (previousPage st).1.currentPage)
    ∧ (nextPage st).1.currentPage = st.currentPage + 1
    ∧ (nextPage st).1.filters = st.filters
    ∧ (nextPage st).2 = [buildJobsUrl (st.currentPage + 1) st.filters]
    ∧ (1 < st.currentPage →
        (previousPage st).1.currentPage = st.currentPage - 1
        ∧ (previousPage st).1.filters = st.filters
        ∧ (previousPage st).2 = [buildJobsUrl (st.currentPage - 1) st.filters])
    ∧ (¬ 1 < st.currentPage → previousPage st = (st, [])) := by
  refine ⟨fun h => ⟨?_, ?_⟩, rfl, rfl, rfl, fun h => ?_, fun h => ?_⟩
  · show 1 ≤ st.currentPage + 1
    omega
  · unfold previousPage
    split_ifs with hp
    · show 1 ≤ st.currentPage - 1
      omega
    · exact h
  · unfold previousPage
    rw [if_pos h]
    exact ⟨rfl, rfl, rfl⟩
  · unfold previousPage
    rw [if_neg h]

/-- Witness for the amended claim C8 at a concrete state on page 3 with
all three filters selected. -/
theorem page_navigation_spec_witness :
    1 ≤ (previousPage jobsPage3).1.currentPage
    ∧ (previousPage jobsPage3).1.currentPage = jobsPage3.currentPage - 1
    ∧ (previousPage jobsPage3).1.filters = jobsPage3.filters
    ∧ (previousPage jobsPage3).2
        = [buildJobsUrl (jobsPage3.currentPage - 1) jobsPage3.filters]
    ∧ (nextPage jobsPage3).2
        = [buildJobsUrl (jobsPage3.currentPage + 1) jobsPage3.filters] :=
  ⟨((page_navigation_spec jobsPage3).1 (by decide)).2,
   ((page_navigation_spec jobsPage3).2.2.2.2.1 (by decide)).1,
   ((page_navigation_spec jobsPage3).2.2.2.2.1 (by decide)).2.1,
   ((page_navigation_spec jobsPage3).2.2.2.2.1 (by decide)).2.2,
   (page_navigation_spec jobsPage3).2.2.2.1⟩

/-!
CSV export lemmas.
-/

theorem count_escape_double (cs : List Char) :
    ((cs.flatMap (fun c => if c = '"' then ['"', '"'] else [c])).count '"')
      = 2 * cs.count '"' := by
  induction cs with
  | nil => rfl
  | cons c cs ih =>
      rw [List.flatMap_cons, List.count_append, ih]
      by_cases h : c = '"'
      · simp [h, List.count_cons]
        omega
      · simp [h, List.count_cons]

/-- Claim C7.  For a non-empty raw dataset the CSV export consists of
exactly R+1 newline-terminated lines: a header naming the columns of
the first row, then one line per row in order; every non-null cell is
stringified, has each embedded double quote doubled, and is wrapped in
double quotes, while null and undefined cells serialize as empty. -/
theorem exportToCSV_spec (r₀ : JVal) (rest : List JVal) :
    (csvLines (r₀ :: rest)).length = (r₀ :: rest).length + 1
    ∧ exportToCSV (r₀ :: rest)
        = some (String.join ((csvLines (r₀ :: rest)).map (fun l => l ++ "\n")))
    ∧ csvLines (r₀ :: rest)
        = csvHeaderLine (objKeys r₀)
            :: (r₀ :: rest).map (csvRowLine (objKeys r₀))
    ∧ csvHeaderLine (objKeys r₀)
        = String.intercalate (",") ((objKeys r₀).map quoteCell)
    ∧ (∀ row, csvRowLine (objKeys r₀) row
        = String.intercalate (",")
            ((objKeys r₀).map (fun c => csvCell (jsGetProp row c))))
    ∧ csvCell none = ""
    ∧ csvCell (some .null) = ""
    ∧ (∀ v : JVal, v ≠ .null →
        csvCell (some v) = ("\"") ++ escapeQuotes (jsString v) ++ ("\""))
    ∧ (∀ s : String,
        ((escapeQuotes s).toList.count '"') = 2 * (s.toList.count '"')) := by
  refine ⟨by simp [csvLines], by simp [exportToCSV], rfl, rfl, fun _ => rfl,
    rfl, rfl, fun v hv => ?_, fun s => ?_⟩
  · cases v with
    | null => exact absurd rfl hv
    | str s => rfl
    | int n => rfl
    | bool b => rfl
    | arr xs => rfl
    | obj fs => rfl
  · exact count_escape_double s.toList

/-- Witness for claim C7 at the concrete rows: two rows give three
lines, the quoted cell doubles the embedded quote, and null serializes
empty. -/
theorem exportToCSV_spec_witness :
    (csvLines csvRows₀).length = csvRows₀.length + 1
    ∧ csvCell (some (JVal.str ("a\"b")))
        = ("\"") ++ escapeQuotes (jsString (JVal.str ("a\"b"))) ++ ("\"")
    ∧ (escapeQuotes ("a\"b")).toList.count '"'
        = 2 * ("a\"b").toList.count '"'
    ∧ exportToCSV csvRows₀
        = some ("\"name\",\"n\"\n\"a\"\"b\",\"5\"\n,\n") := by
  refine ⟨(exportToCSV_spec (.obj [(("name"), .str ("a\"b")), (("n"), .int 5)])
      [.obj [(("name"), .null)]]).1,
    (exportToCSV_spec (.obj [(("name"), .str ("a\"b")), (("n"), .int 5)])
      [.obj [(("name"), .null)]]).2.2.2.2.2.2.2.1 (JVal.str ("a\"b"))
      (fun hc => JVal.noConfusion hc),
    (exportToCSV_spec (.obj [(("name"), .str ("a\"b")), (("n"), .int 5)])
      [.obj [(("name"), .null)]]).2.2.2.2.2.2.2.2 ("a\"b"),
    rfl⟩

/-- Claim C1 (code bug), evaluated.  The table type (case-insensitively)
hides the chart section, creates no chart and leaves the previous
instance in place while still rendering the table; bar, line, pie,
doughnut and radar create a chart of the same type; an unrecognized
type falls back to bar; but `polarArea` — although listed in the
validator array `validChartTypes` — is lowercased to `polararea` before
the comparison, never matches its own list entry, and falls back to a
bar chart, contradicting the claim.  The pie example also shows the
single dataset carrying as many values as there are labels. -/
theorem chart_type_resolution_eval :
    resolveChartType ("table") = none
    ∧ resolveChartType ("Table") = none
    ∧ (displayResults ("TABLE") pieChartData csvRows₀
        dashWithChart).chartSectionHidden = true
    ∧ (displayResults ("TABLE") pieChartData csvRows₀
        dashWithChart).currentChart = dashWithChart.currentChart
    ∧ (displayResults ("TABLE") pieChartData csvRows₀
        dashWithChart).renderedTable = some csvRows₀
    ∧ resolveChartType ("bar") = some ("bar")
    ∧ resolveChartType ("line") = some ("line")
    ∧ resolveChartType ("pie") = some ("pie")
    ∧ resolveChartType ("doughnut") = some ("doughnut")
    ∧ resolveChartType ("radar") = some ("radar")
    ∧ validChartTypes.contains ("polarArea") = true
    ∧ resolveChartType ("polarArea") = some ("bar")
    ∧ resolveChartType ("scatter") = some ("bar")
    ∧ (displayResults ("pie") pieChartData csvRows₀
        dashWithChart).chartSectionHidden = false
    ∧ (displayResults ("pie") pieChartData csvRows₀ dashWithChart).currentChart
        = some { typ := ("pie"), labels := .arr [.str ("A"), .str ("B")]
                 data := .arr [.int 3, .int 7], datasetLabel := .str ("Demo") }
    ∧ (displayResults ("pie") pieChartData csvRows₀
        dashWithChart).renderedTable = some csvRows₀ :=
  ⟨rfl, rfl, rfl, rfl, rfl, rfl, rfl, rfl, rfl, rfl, rfl, rfl, rfl, rfl,
   rfl, rfl⟩

end Portal
